import Mathlib

/-!
# Request pipeline of api.melvin.la: parameter binding and response emission

A shallow embedding of

* `src/api/router/response.go` (namespace `ApiRouter`): the response emitter,
* `src/src/router/params.go` (namespace `SrcRouter`): the field schema compiler
  (`NewParamOptions`), the validator (`ParamOptions.Validate`) and the
  parameter binder (`Request.ParseParams`, `Request.setParamValue`).

Go strings are Lean strings, a Go `error` result is an `Option`, a mutated
receiver is returned as the new state, a run-time panic is the result `none`.
The Go standard library functions the code calls (`strconv.ParseBool`,
`strconv.ParseInt`, `strings.TrimSpace`, `strings.Split`, `strings.ToLower`,
`url.Values.Get`, `http.Error`, `reflect`) are embedded after their documented
behaviour, under their Go names.
-/

/-! ## Package apierror -/

/-- Modelled from the spec: the type `apierror.ApiError`, whose package is not
part of the sources.  An ApiError carries a canonical HTTP status (`Code()`) and
a message (`Error()`). -/
structure ApiError where
  code : Nat
  message : String
deriving DecidableEq, Repr

namespace ApiError

/-- Modelled from the spec: `apierror.NewBadRequest`, whose package is not part
of the sources: the constructor of the BadRequest kind fixes status 400.  The
argument is the message after `fmt.Sprintf` formatting. -/
def NewBadRequest (msg : String) : ApiError := ⟨400, msg⟩

/-- Modelled from the spec: `apierror.NewServerError`, whose package is not part
of the sources: the constructor of the ServerError kind fixes status 500.  The
argument is the message after `fmt.Sprintf` formatting. -/
def NewServerError (msg : String) : ApiError := ⟨500, msg⟩

/-- Modelled from the spec: the constructor of the Unauthorized kind, whose
package is not part of the sources: it fixes status 401. -/
def NewUnauthorized : ApiError := ⟨401, "Unauthorized"⟩

/-- Modelled from the spec: the constructor of the Forbidden kind, whose package
is not part of the sources: it fixes status 403. -/
def NewForbidden : ApiError := ⟨403, "Forbidden"⟩

end ApiError

/-! ## src/api/router/response.go -/

namespace ApiRouter

/-- A Go `error` value as `Request.Error` sees it: either the type assertion
`e.(*apierror.ApiError)` succeeds, or the value is some other error, of which
only `e.Error()` is used. -/
inductive GoError where
  | api (err : ApiError)
  | other (msg : String)
deriving DecidableEq, Repr

/-- A call received by the `http.ResponseWriter` of a request. -/
inductive ResponseEvent where
  /-- The call `WriteHeader(code)`: the status line. -/
  | WriteHeader (code : Nat)
  /-- The body text handed to the writer. -/
  | Write (body : String)
deriving DecidableEq, Repr

/-- A non-nil `*Request`: the calls its `Response` has received so far, oldest
first, and the text `%s` prints for the request in a log line. -/
structure Request where
  Response : List ResponseEvent
  repr : String
deriving DecidableEq, Repr

/-- What the response operations act on: the request (`none` is the nil
request) and the lines given to `logger.Errorf`, oldest first. -/
structure State where
  req : Option Request
  log : List String
deriving DecidableEq, Repr

/-- The status code `http.StatusInternalServerError`. -/
def StatusInternalServerError : Nat := 500

/-- The call `http.Error(w, error, code)`: the status `code` is written, then, as
the body, the text `error` and a line feed after it (`fmt.Fprintln`).  The
content-type headers that the call sets are not recorded. -/
def httpError (w : List ResponseEvent) (error : String) (code : Nat) : List ResponseEvent :=
  w ++ [ResponseEvent.WriteHeader code, ResponseEvent.Write (error ++ "\n")]

/-- The call `logger.Errorf("%s - %s", err.Error(), req)`. -/
def logErrorf (log : List String) (err : ApiError) (req : Request) : List String :=
  log ++ [err.message ++ " - " ++ req.repr]

/-- The method `Request.Error` of response.go.  `debug` is the configuration flag
`app.GetContext().Params.Debug`.  The status of an ApiError is one of the
canonical statuses of its constructors, which `WriteHeader` accepts. -/
def Error (debug : Bool) (s : State) (e : GoError) : State :=
  match s.req with
  | none => s
  | some req =>
    let err : ApiError :=
      match e with
      | GoError.api err => err
      | GoError.other msg => ApiError.NewServerError msg
    if err.code = StatusInternalServerError then
      { req := some { req with
          Response := httpError req.Response "\x7b\"error\":\"Something went wrong\"\x7d"
            StatusInternalServerError },
        log := logErrorf s.log err req }
    else
      { req := some { req with
          Response := httpError req.Response ("\x7b\"error\":\"" ++ err.message ++ "\"\x7d") err.code },
        log := if debug then logErrorf s.log err req else s.log }

/-- The status code `http.StatusNoContent`. -/
def StatusNoContent : Nat := 204

/-- The status code `http.StatusCreated`. -/
def StatusCreated : Nat := 201

/-- The status code `http.StatusOK`. -/
def StatusOK : Nat := 200

/-- A non-nil payload `obj`, by what `json.NewEncoder(w).Encode(obj)` does with
it: it writes the JSON encoding `json` of the payload and a line feed after it to
the writer, or it returns an error (a value that has no JSON encoding) and
writes nothing.  A failure of the transport while writing is not covered. -/
inductive Payload where
  | encodes (json : String)
  | fails (err : String)
deriving DecidableEq, Repr

/-- The method `Request.RenderJSON`: `code` is a Go `int`, `obj` is the payload,
`none` the nil interface.  The result `none` is a run-time panic: the method has
no nil check, so on the nil request the read of `req.Response` is a nil pointer
dereference; and `WriteHeader` panics on a code below 100 or above 999. -/
def RenderJSON (s : State) (code : Int) (obj : Option Payload) : Option State :=
  match s.req with
  | none => none
  | some req =>
    if code < 100 ∨ 999 < code then none
    else
      let written := req.Response ++ [ResponseEvent.WriteHeader code.toNat]
      match obj with
      | none => some { req := some { req with Response := written }, log := s.log }
      | some (Payload.encodes json) =>
        some { req := some { req with
                 Response := written ++ [ResponseEvent.Write (json ++ "\n")] },
               log := s.log }
      | some (Payload.fails err) =>
        some { req := some { req with
                 Response := written ++ [ResponseEvent.WriteHeader StatusInternalServerError] },
               log := s.log ++ ["Could not write JSON response: " ++ err] }

/-- The method `Request.NoContent`; `some` is a normal return. -/
def NoContent (s : State) : Option State :=
  match s.req with
  | none => some s
  | some req =>
    some { req := some { req with
             Response := req.Response ++ [ResponseEvent.WriteHeader StatusNoContent] },
           log := s.log }

/-- The method `Request.Created`; `some` is a normal return. -/
def Created (s : State) (obj : Option Payload) : Option State :=
  match s.req with
  | none => some s
  | some _ => RenderJSON s StatusCreated obj

/-- The method `Request.Ok`; `some` is a normal return. -/
def Ok (s : State) (obj : Option Payload) : Option State :=
  match s.req with
  | none => some s
  | some _ => RenderJSON s StatusOK obj

end ApiRouter

/-! ## Standard library functions used by src/src/router/params.go -/

namespace SrcRouter

/-- The function `strconv.ParseBool`: the literals 1, t, T, TRUE, true, True are
true, the literals 0, f, F, FALSE, false, False are false, anything else is an
error (`none`). -/
def ParseBool (str : String) : Option Bool :=
  if str ∈ ["1", "t", "T", "TRUE", "true", "True"] then some true
  else if str ∈ ["0", "f", "F", "FALSE", "false", "False"] then some false
  else none

/-- The predicate `unicode.IsSpace`: the white space characters of Unicode. -/
def isSpace (c : Char) : Bool :=
  c ∈ ['\t', '\n', '\x0b', '\x0c', '\r', ' ', '\u0085', '\u00a0', '\u1680',
       '\u2000', '\u2001', '\u2002', '\u2003', '\u2004', '\u2005', '\u2006',
       '\u2007', '\u2008', '\u2009', '\u200a', '\u2028', '\u2029', '\u202f',
       '\u205f', '\u3000']

/-- The function `strings.TrimSpace`: the string without its leading and trailing
white space. -/
def TrimSpace (s : String) : String :=
  ⟨(((s.data.dropWhile isSpace).reverse).dropWhile isSpace).reverse⟩

/-- The letters beyond ASCII that have a lower case, by ranges, after the case
tables of package `unicode` (Unicode 15.0): the first and the last code point of
a range, the step between its letters, and the lower case of the first; the
lower case of another letter of the range is as far from that of the first as
the letter is from the first. -/
def lowerRanges : List (Nat × Nat × Nat × Nat) :=
  [(0xC0, 0xDE, 2, 0xE0), (0xC1, 0xD6, 1, 0xE1), (0xD8, 0xDE, 1, 0xF8),
   (0x100, 0x12E, 2, 0x101), (0x130, 0x130, 1, 0x69), (0x132, 0x136, 2, 0x133),
   (0x139, 0x147, 2, 0x13A), (0x14A, 0x176, 2, 0x14B), (0x178, 0x178, 1, 0xFF),
   (0x179, 0x17D, 2, 0x17A), (0x181, 0x181, 1, 0x253), (0x182, 0x184, 2, 0x183),
   (0x186, 0x186, 1, 0x254), (0x187, 0x187, 1, 0x188), (0x189, 0x18A, 1, 0x256),
   (0x18B, 0x18B, 1, 0x18C), (0x18E, 0x18E, 1, 0x1DD), (0x18F, 0x18F, 1, 0x259),
   (0x190, 0x190, 1, 0x25B), (0x191, 0x191, 1, 0x192), (0x193, 0x193, 1, 0x260),
   (0x194, 0x194, 1, 0x263), (0x196, 0x196, 1, 0x269), (0x197, 0x197, 1, 0x268),
   (0x198, 0x198, 1, 0x199), (0x19C, 0x19C, 1, 0x26F), (0x19D, 0x19D, 1, 0x272),
   (0x19F, 0x19F, 1, 0x275), (0x1A0, 0x1A4, 2, 0x1A1), (0x1A6, 0x1A6, 1, 0x280),
   (0x1A7, 0x1A7, 1, 0x1A8), (0x1A9, 0x1A9, 1, 0x283), (0x1AC, 0x1AC, 1, 0x1AD),
   (0x1AE, 0x1AE, 1, 0x288), (0x1AF, 0x1AF, 1, 0x1B0), (0x1B1, 0x1B2, 1, 0x28A),
   (0x1B3, 0x1B5, 2, 0x1B4), (0x1B7, 0x1B7, 1, 0x292), (0x1B8, 0x1B8, 1, 0x1B9),
   (0x1BC, 0x1BC, 1, 0x1BD), (0x1C4, 0x1C4, 1, 0x1C6), (0x1C5, 0x1C5, 1, 0x1C6),
   (0x1C7, 0x1C7, 1, 0x1C9), (0x1C8, 0x1C8, 1, 0x1C9), (0x1CA, 0x1CA, 1, 0x1CC),
   (0x1CB, 0x1DB, 2, 0x1CC), (0x1DE, 0x1EE, 2, 0x1DF), (0x1F1, 0x1F1, 1, 0x1F3),
   (0x1F2, 0x1F4, 2, 0x1F3), (0x1F6, 0x1F6, 1, 0x195), (0x1F7, 0x1F7, 1, 0x1BF),
   (0x1F8, 0x21E, 2, 0x1F9), (0x220, 0x220, 1, 0x19E), (0x222, 0x232, 2, 0x223),
   (0x23A, 0x23A, 1, 0x2C65), (0x23B, 0x23B, 1, 0x23C), (0x23D, 0x23D, 1, 0x19A),
   (0x23E, 0x23E, 1, 0x2C66), (0x241, 0x241, 1, 0x242), (0x243, 0x243, 1, 0x180),
   (0x244, 0x244, 1, 0x289), (0x245, 0x245, 1, 0x28C), (0x246, 0x24E, 2, 0x247),
   (0x370, 0x372, 2, 0x371), (0x376, 0x376, 1, 0x377), (0x37F, 0x37F, 1, 0x3F3),
   (0x386, 0x386, 1, 0x3AC), (0x388, 0x38A, 1, 0x3AD), (0x38C, 0x38C, 1, 0x3CC),
   (0x38E, 0x38F, 1, 0x3CD), (0x391, 0x3AB, 2, 0x3B1), (0x392, 0x3A1, 1, 0x3B2),
   (0x3A3, 0x3AB, 1, 0x3C3), (0x3CF, 0x3CF, 1, 0x3D7), (0x3D8, 0x3EE, 2, 0x3D9),
   (0x3F4, 0x3F4, 1, 0x3B8), (0x3F7, 0x3F7, 1, 0x3F8), (0x3F9, 0x3F9, 1, 0x3F2),
   (0x3FA, 0x3FA, 1, 0x3FB), (0x3FD, 0x3FF, 1, 0x37B), (0x400, 0x40F, 1, 0x450),
   (0x410, 0x42F, 1, 0x430), (0x460, 0x480, 2, 0x461), (0x48A, 0x4BE, 2, 0x48B),
   (0x4C0, 0x4C0, 1, 0x4CF), (0x4C1, 0x4CD, 2, 0x4C2), (0x4D0, 0x52E, 2, 0x4D1),
   (0x531, 0x556, 1, 0x561), (0x10A0, 0x10C5, 1, 0x2D00), (0x10C7, 0x10C7, 1, 0x2D27),
   (0x10CD, 0x10CD, 1, 0x2D2D), (0x13A0, 0x13EF, 1, 0xAB70), (0x13F0, 0x13F5, 1, 0x13F8),
   (0x1C90, 0x1CBA, 1, 0x10D0), (0x1CBD, 0x1CBF, 1, 0x10FD), (0x1E00, 0x1E94, 2, 0x1E01),
   (0x1E9E, 0x1E9E, 1, 0xDF), (0x1EA0, 0x1EFE, 2, 0x1EA1), (0x1F08, 0x1F0F, 1, 0x1F00),
   (0x1F18, 0x1F1D, 1, 0x1F10), (0x1F28, 0x1F2F, 1, 0x1F20), (0x1F38, 0x1F3F, 1, 0x1F30),
   (0x1F48, 0x1F4D, 1, 0x1F40), (0x1F59, 0x1F5F, 2, 0x1F51), (0x1F68, 0x1F6F, 1, 0x1F60),
   (0x1F88, 0x1F8F, 1, 0x1F80), (0x1F98, 0x1F9F, 1, 0x1F90), (0x1FA8, 0x1FAF, 1, 0x1FA0),
   (0x1FB8, 0x1FB9, 1, 0x1FB0), (0x1FBA, 0x1FBB, 1, 0x1F70), (0x1FBC, 0x1FBC, 1, 0x1FB3),
   (0x1FC8, 0x1FCB, 1, 0x1F72), (0x1FCC, 0x1FCC, 1, 0x1FC3), (0x1FD8, 0x1FD9, 1, 0x1FD0),
   (0x1FDA, 0x1FDB, 1, 0x1F76), (0x1FE8, 0x1FE9, 1, 0x1FE0), (0x1FEA, 0x1FEB, 1, 0x1F7A),
   (0x1FEC, 0x1FEC, 1, 0x1FE5), (0x1FF8, 0x1FF9, 1, 0x1F78), (0x1FFA, 0x1FFB, 1, 0x1F7C),
   (0x1FFC, 0x1FFC, 1, 0x1FF3), (0x2126, 0x2126, 1, 0x3C9), (0x212A, 0x212A, 1, 0x6B),
   (0x212B, 0x212B, 1, 0xE5), (0x2132, 0x2132, 1, 0x214E), (0x2160, 0x216F, 1, 0x2170),
   (0x2183, 0x2183, 1, 0x2184), (0x24B6, 0x24CF, 1, 0x24D0), (0x2C00, 0x2C2F, 1, 0x2C30),
   (0x2C60, 0x2C60, 1, 0x2C61), (0x2C62, 0x2C62, 1, 0x26B), (0x2C63, 0x2C63, 1, 0x1D7D),
   (0x2C64, 0x2C64, 1, 0x27D), (0x2C67, 0x2C6B, 2, 0x2C68), (0x2C6D, 0x2C6D, 1, 0x251),
   (0x2C6E, 0x2C6E, 1, 0x271), (0x2C6F, 0x2C6F, 1, 0x250), (0x2C70, 0x2C70, 1, 0x252),
   (0x2C72, 0x2C72, 1, 0x2C73), (0x2C75, 0x2C75, 1, 0x2C76), (0x2C7E, 0x2C7F, 1, 0x23F),
   (0x2C80, 0x2CE2, 2, 0x2C81), (0x2CEB, 0x2CED, 2, 0x2CEC), (0x2CF2, 0x2CF2, 1, 0x2CF3),
   (0xA640, 0xA66C, 2, 0xA641), (0xA680, 0xA69A, 2, 0xA681), (0xA722, 0xA72E, 2, 0xA723),
   (0xA732, 0xA76E, 2, 0xA733), (0xA779, 0xA77B, 2, 0xA77A), (0xA77D, 0xA77D, 1, 0x1D79),
   (0xA77E, 0xA786, 2, 0xA77F), (0xA78B, 0xA78B, 1, 0xA78C), (0xA78D, 0xA78D, 1, 0x265),
   (0xA790, 0xA792, 2, 0xA791), (0xA796, 0xA7A8, 2, 0xA797), (0xA7AA, 0xA7AA, 1, 0x266),
   (0xA7AB, 0xA7AB, 1, 0x25C), (0xA7AC, 0xA7AC, 1, 0x261), (0xA7AD, 0xA7AD, 1, 0x26C),
   (0xA7AE, 0xA7AE, 1, 0x26A), (0xA7B0, 0xA7B0, 1, 0x29E), (0xA7B1, 0xA7B1, 1, 0x287),
   (0xA7B2, 0xA7B2, 1, 0x29D), (0xA7B3, 0xA7B3, 1, 0xAB53), (0xA7B4, 0xA7C2, 2, 0xA7B5),
   (0xA7C4, 0xA7C4, 1, 0xA794), (0xA7C5, 0xA7C5, 1, 0x282), (0xA7C6, 0xA7C6, 1, 0x1D8E),
   (0xA7C7, 0xA7C9, 2, 0xA7C8), (0xA7D0, 0xA7D0, 1, 0xA7D1), (0xA7D6, 0xA7D8, 2, 0xA7D7),
   (0xA7F5, 0xA7F5, 1, 0xA7F6), (0xFF21, 0xFF3A, 1, 0xFF41), (0x10400, 0x10427, 1, 0x10428),
   (0x104B0, 0x104D3, 1, 0x104D8), (0x10570, 0x10594, 2, 0x10597),
   (0x10571, 0x1057A, 1, 0x10598), (0x1057C, 0x10594, 2, 0x105A3),
   (0x1057D, 0x1058A, 1, 0x105A4), (0x1058C, 0x10594, 2, 0x105B3),
   (0x1058D, 0x10592, 1, 0x105B4), (0x10594, 0x10595, 1, 0x105BB),
   (0x10C80, 0x10CB2, 1, 0x10CC0), (0x118A0, 0x118BF, 1, 0x118C0),
   (0x16E40, 0x16E5F, 1, 0x16E60), (0x1E900, 0x1E921, 1, 0x1E922)]

/-- The function `unicode.ToLower`: the lower case of a character, the character
itself when it has none. -/
def unicodeToLower (c : Char) : Char :=
  if c.toNat ≤ 127 then
    if 65 ≤ c.toNat ∧ c.toNat ≤ 90 then Char.ofNat (c.toNat + 32) else c
  else
    match lowerRanges.find? (fun r =>
        decide (r.1 ≤ c.toNat ∧ c.toNat ≤ r.2.1 ∧ (c.toNat - r.1) % r.2.2.1 = 0)) with
    | some r => Char.ofNat (r.2.2.2 + (c.toNat - r.1))
    | none => c

/-- The function `strings.ToLower`: every character mapped to its lower case.  (A
Go string that is not valid UTF-8 has no counterpart here.) -/
def ToLower (s : String) : String := ⟨s.data.map unicodeToLower⟩

/-- Splitting of a character list at every comma. -/
def splitComma : List Char → List (List Char)
  | [] => [[]]
  | c :: cs =>
    if c = ',' then [] :: splitComma cs
    else
      match splitComma cs with
      | [] => [[c]]
      | h :: t => (c :: h) :: t

/-- The call `strings.Split(s, ",")`: the substrings of `s` between commas; a
string without a comma (the empty string too) gives one substring, itself. -/
def Split (s : String) : List String := (splitComma s.data).map String.mk

/-- The decimal digits. -/
def isDigit (c : Char) : Bool := c ∈ ['0', '1', '2', '3', '4', '5', '6', '7', '8', '9']

/-- The number a list of decimal digits writes. -/
def digitsValue (ds : List Char) : Nat :=
  ds.foldl (fun acc c => 10 * acc + (c.toNat - 48)) 0

/-- The call `strconv.ParseInt(s, 10, 64)`: an optional sign, then one or more
decimal digits, giving a value of the signed 64-bit range; anything else is an
error (`none`). -/
def ParseInt (s : String) : Option Int :=
  let signed : Bool × List Char :=
    match s.data with
    | '+' :: rest => (false, rest)
    | '-' :: rest => (true, rest)
    | rest => (false, rest)
  if signed.2 = [] ∨ signed.2.all isDigit = false then none
  else
    let n := digitsValue signed.2
    if signed.1 then (if n ≤ 2 ^ 63 then some (-(n : Int)) else none)
    else (if n < 2 ^ 63 then some (n : Int) else none)

/-- The type `url.Values`: the values of each key, as a list of bindings of which
the first for a key counts. -/
abbrev Values := List (String × List String)

/-- The method `url.Values.Get`: the first value of the key, the empty string
when the key has none. -/
def Values.Get (v : Values) (key : String) : String :=
  match v.lookup key with
  | some (x :: _) => x
  | _ => ""

/-- The type `reflect.StructTag`, as the key/value pairs its conventional
`key:"value"` text declares. -/
abbrev StructTag := List (String × String)

/-- The method `reflect.StructTag.Get`: the value of the key, the empty string
when the tag has no such key. -/
def StructTag.Get (tag : StructTag) (key : String) : String :=
  (tag.lookup key).getD ""

/-! ## Package validators -/

/-- The hexadecimal digits, of either case. -/
def isHexDigit (c : Char) : Bool :=
  c ∈ ['0', '1', '2', '3', '4', '5', '6', '7', '8', '9',
       'a', 'b', 'c', 'd', 'e', 'f', 'A', 'B', 'C', 'D', 'E', 'F']

/-- The version digit of a UUIDv4. -/
def isVersion4 (c : Char) : Bool := c = '4'

/-- The variant digit of a UUIDv4: 8, 9, a or b, of either case. -/
def isVariant (c : Char) : Bool := c ∈ ['8', '9', 'a', 'b', 'A', 'B']

/-- The dash between two groups. -/
def isDash (c : Char) : Bool := c = '-'

/-- The 36 positions of a dashed UUIDv4: groups of 8, 4, 4, 4 and 12 hexadecimal
digits, the third starting with the version, the fourth with the variant. -/
def uuidShape : List (Char → Bool) :=
  List.replicate 8 isHexDigit ++ [isDash] ++
  List.replicate 4 isHexDigit ++ [isDash] ++
  [isVersion4] ++ List.replicate 3 isHexDigit ++ [isDash] ++
  [isVariant] ++ List.replicate 3 isHexDigit ++ [isDash] ++
  List.replicate 12 isHexDigit

/-- Whether a character list has exactly the positions of a shape. -/
def matchesShape : List (Char → Bool) → List Char → Bool
  | [], [] => true
  | p :: ps, c :: cs => p c && matchesShape ps cs
  | _, _ => false

/-- Modelled from the spec: `validators.IsValidUUID`, whose package is not part
of the sources: the value is syntactically a dashed UUIDv4, its hexadecimal
digits in lower or upper case. -/
def IsValidUUID (value : String) : Bool := matchesShape uuidShape value.data

/-! ## src/src/router/params.go: options and validation -/

/-- The struct `ParamOptions`: all the options of a field. -/
structure ParamOptions where
  /-- The field should not be parsed (`json:"-"`). -/
  Ignore : Bool := false
  /-- The name of the field in the payload. -/
  Name : String := ""
  /-- The request fails with a Bad Request if the field is missing. -/
  Required : Bool := false
  /-- The field is trimmed before being retrieved and checked. -/
  Trim : Bool := false
  /-- The field should contain a valid UUIDv4. -/
  ValidateUUID : Bool := false
  /-- The field should either be empty or contain a bool. -/
  ValidateOptionalBool : Bool := false
deriving DecidableEq, Repr

/-- The method `ParamOptions.Validate`: `none` is the nil error. -/
def ParamOptions.Validate (opts : ParamOptions) (value : String) : Option ApiError :=
  if value = "" ∧ opts.Required = true then
    some (ApiError.NewBadRequest ("parameter missing: " ++ opts.Name))
  else if value ≠ "" then
    if opts.ValidateUUID = true ∧ IsValidUUID value = false then
      some (ApiError.NewBadRequest ("not a valid uuid: " ++ opts.Name ++ " - " ++ value))
    else if opts.ValidateOptionalBool = true then
      match ParseBool value with
      | none => some (ApiError.NewBadRequest ("not a valid bool: " ++ opts.Name ++ " - " ++ value))
      | some _ => none
    else none
  else none

/-- The method `ParamOptions.ApplyTransformations`. -/
def ParamOptions.ApplyTransformations (opts : ParamOptions) (value : String) : String :=
  if opts.Trim = true then TrimSpace value else value

/-- One step of the loop of `NewParamOptions` over the tokens of the params
tag: the switch on `opts[i]`. -/
def applyOption (output : ParamOptions) (opt : String) : ParamOptions :=
  if opt = "required" then { output with Required := true }
  else if opt = "trim" then { output with Trim := true }
  else if opt = "uuid" then { output with ValidateUUID := true }
  else if opt = "bool" then { output with ValidateOptionalBool := true }
  else output

/-- The function `NewParamOptions`: the options a struct tag declares. -/
def NewParamOptions (tags : StructTag) : ParamOptions :=
  let named : Option ParamOptions :=
    match Split (tags.Get "json") with
    | [] => some {}
    | first :: _ => if first = "-" then none else some { Name := first }
  match named with
  | none => { Ignore := true }
  | some output => (Split (tags.Get "params")).foldl applyOption output

/-! ## src/src/router/params.go: the binder -/

/-- A Go value of one of the kinds the binder distinguishes: `reflect.Bool`,
`reflect.String`, `reflect.Int` (the platform integer, of 64 bits), or any other
kind, of which the binder reads nothing. -/
inductive Value where
  | bool (b : Bool)
  | string (s : String)
  | int (i : Int)
  | other (kind : String) (content : String)
deriving DecidableEq, Repr

/-- The storage of a struct field: a value, or a pointer that is nil (`none`) or
points at a value. -/
inductive Slot where
  | direct (v : Value)
  | pointer (target : Option Value)
deriving DecidableEq, Repr

/-- A field of the destination struct: its Go name (`paramInfo.Name`), its tag
(`paramInfo.Tag`), whether its name is exported, and its storage. -/
structure Field where
  Name : String
  Tag : StructTag
  exported : Bool
  slot : Slot
deriving DecidableEq, Repr

/-- The struct behind `r.Params`: its fields in declaration order, and whether
`r.Params` is a pointer to the struct (its fields are then addressable) or the
struct itself. -/
structure Params where
  byPointer : Bool
  fields : List Field
deriving DecidableEq, Repr

/-- The sources of a request, by name: the result of `r.ParamsBySource()`. -/
abbrev Sources := List (String × Values)

/-- A `*Request` as `ParseParams` uses it: the destination `r.Params` and what
`r.ParamsBySource()` returns. -/
structure Request where
  Params : Params
  ParamsBySource : Except ApiError Sources

/-- The value `param` of the loop of `ParseParams` after
`if param.Kind() == reflect.Ptr { param = param.Elem() }`: the field, or what
the field points at; `none` is the zero `reflect.Value`, the `Elem()` of a nil
pointer. -/
def Field.param (f : Field) : Option Value :=
  match f.slot with
  | Slot.direct v => some v
  | Slot.pointer target => target

/-- The call `param.CanSet()` on that value: it is addressable and was not
reached through an unexported field.  A field is addressable when the struct
is, what a pointer points at always is, and the zero `reflect.Value` cannot be
set. -/
def Field.CanSet (byPointer : Bool) (f : Field) : Bool :=
  match f.slot with
  | Slot.direct _ => byPointer && f.exported
  | Slot.pointer none => false
  | Slot.pointer (some _) => f.exported

/-- The field after `param` was set to `v`: a pointer field is written through. -/
def Field.set (f : Field) (v : Value) : Field :=
  match f.slot with
  | Slot.direct _ => { f with slot := Slot.direct v }
  | Slot.pointer _ => { f with slot := Slot.pointer (some v) }

/-- The method `Request.setParamValue`, on `args.param`, `args.paramInfo.Name`,
`args.tags` and `args.source`: the value of `param` afterwards and the error. -/
def setParamValue (param : Value) (paramInfoName : String) (tags : StructTag)
    (source : Values) : Value × Option ApiError :=
  let opts := NewParamOptions tags
  let defaultValue := tags.Get "default"
  if opts.Ignore = true then (param, none)
  else
    let opts : ParamOptions := if opts.Name = "" then { opts with Name := paramInfoName } else opts
    let value := opts.ApplyTransformations (source.Get opts.Name)
    let value := if value = "" then defaultValue else value
    match opts.Validate value with
    | some err => (param, some err)
    | none =>
      if value ≠ "" then
        let errorMsg := "value [" ++ value ++ "] for parameter [" ++ opts.Name ++ "] is invalid"
        match param with
        | Value.bool _ =>
          match ParseBool value with
          | none => (param, some (ApiError.NewBadRequest errorMsg))
          | some v => (Value.bool v, none)
        | Value.string _ => (Value.string value, none)
        | Value.int _ =>
          match ParseInt value with
          | none => (param, some (ApiError.NewBadRequest errorMsg))
          | some v => (Value.int v, none)
        | Value.other _ _ => (param, none)
      else (param, none)

/-- The source name of a field: `strings.ToLower(tags.Get("from"))`, or `url`
when that is empty. -/
def paramLocation (tags : StructTag) : String :=
  if ToLower (tags.Get "from") = "" then "url" else ToLower (tags.Get "from")

/-- One iteration of the loop of `ParseParams`: the field afterwards and the
error that ends the loop, if any.  (The loop also prints the source name on the
standard output, which is no part of the result.) -/
def parseField (byPointer : Bool) (sources : Sources) (f : Field) : Field × Option ApiError :=
  if f.CanSet byPointer = false then
    (f, some (ApiError.NewServerError ("field [" ++ f.Name ++ "] could not be set")))
  else
    match sources.lookup (paramLocation f.Tag) with
    | none =>
      (f, some (ApiError.NewServerError
        ("source [" ++ paramLocation f.Tag ++ "] for field [" ++ f.Name ++ "] does not exists")))
    | some source =>
      match f.param with
      | none => (f, none)
      | some param =>
        match setParamValue param f.Name f.Tag source with
        | (v, err) => (f.set v, err)

/-- The loop of `ParseParams` over the fields still to handle: it stops at the
first error, leaving the later fields as they are. -/
def parseFields (byPointer : Bool) (sources : Sources) : List Field → List Field × Option ApiError
  | [] => ([], none)
  | f :: rest =>
    match parseField byPointer sources f with
    | (f1, some err) => (f1 :: rest, some err)
    | (f1, none) =>
      match parseFields byPointer sources rest with
      | (rest1, err) => (f1 :: rest1, err)

/-- The method `Request.ParseParams`: the destination afterwards and the error. -/
def ParseParams (r : Request) : Params × Option ApiError :=
  match r.ParamsBySource with
  | Except.error err => (r.Params, some err)
  | Except.ok sources =>
    match parseFields r.Params.byPointer sources r.Params.fields with
    | (fields, err) => ({ r.Params with fields := fields }, err)

/-! ## Notions used to state the properties -/

/-- The options `opts` of `setParamValue` once the name is resolved: those of the
tag, named after the Go field when the tag gives no name. -/
def fieldOptions (paramInfoName : String) (tags : StructTag) : ParamOptions :=
  if (NewParamOptions tags).Name = "" then { NewParamOptions tags with Name := paramInfoName }
  else NewParamOptions tags

/-- The value of a field extracted from its source and transformed, before the
default is substituted. -/
def extractedValue (paramInfoName : String) (tags : StructTag) (source : Values) : String :=
  (fieldOptions paramInfoName tags).ApplyTransformations
    (source.Get (fieldOptions paramInfoName tags).Name)

/-- The value `value` that `setParamValue` validates and assigns: the extracted
value, or the default of the tag when that is empty. -/
def fieldValue (paramInfoName : String) (tags : StructTag) (source : Values) : String :=
  if extractedValue paramInfoName tags source = "" then tags.Get "default"
  else extractedValue paramInfoName tags source

/-- The upper case of a string of ASCII characters, such as a UUID: its letters
from a to z in upper case, every other character kept. -/
def ToUpper (s : String) : String := ⟨s.data.map Char.toUpper⟩

/-- The number that decimal digits write, the first digit the most significant. -/
def decimalValue (digits : List Char) : Nat :=
  Nat.ofDigits 10 ((digits.map fun c => c.toNat - 48).reverse)

/-- The first token of the json tag: the naming token of a field. -/
def namingToken (tags : StructTag) : String := (Split (tags.Get "json")).headD ""

/-- The tokens of the params tag. -/
def optionTokens (tags : StructTag) : List String := Split (tags.Get "params")

/-- A params tag that has exactly the wanted tokens among the four options. -/
def optionsText (required trim uuid bool : Bool) : String :=
  (if required then "required" else "") ++ "," ++ (if trim then "trim" else "") ++ "," ++
    (if uuid then "uuid" else "") ++ "," ++ (if bool then "bool" else "")

end SrcRouter

/-! ## The guard -/

/-- Modelled from the spec: the identity of the caller, which the sources only
build in tests (`auth.User`): its subject id and whether it carries the
administrative capability. -/
structure User where
  ID : String
  IsAdmin : Bool
deriving DecidableEq, Repr

/-- The parameters already bound, by name. -/
abbrev BoundParams := List (String × String)

/-- The value bound to a name, the empty string when there is none. -/
def BoundParams.value (boundParams : BoundParams) (name : String) : String :=
  (boundParams.lookup name).getD ""

/-- Modelled from the spec: the capability level a guard requires, a closed set
of four: no identity required, any valid identity, an identity with the
administrative capability, or an identity whose subject id is the id of the
owner of the resource, which the resolver of the guard finds from the bound
parameters. -/
inductive Access where
  | Anonymous
  | Authenticated
  | Admin
  | Owner (ownerResolver : BoundParams → String)

/-- Modelled from the spec: a rule of re-authentication of a guard: the sensitive
field whose change triggers it, and the check that the caller has re-supplied
the current credential in the same request and that it was verified. -/
structure ReauthRule where
  triggerField : String
  requireCredential : User → BoundParams → Bool

/-- Modelled from the spec: the guard of an endpoint, whose code is not part of
the sources: the capability it requires and its rules of re-authentication. -/
structure Guard where
  requiredAccess : Access
  fieldReauthRules : List ReauthRule

/-- Modelled from the spec: the capability check of a guard: 401 when no
identity is present at all, 403 when an identity is present but insufficient. -/
def Guard.checkAccess (g : Guard) (identity : Option User) (boundParams : BoundParams) :
    Option ApiError :=
  match g.requiredAccess, identity with
  | Access.Anonymous, _ => none
  | _, none => some ApiError.NewUnauthorized
  | Access.Authenticated, some _ => none
  | Access.Admin, some user => if user.IsAdmin = true then none else some ApiError.NewForbidden
  | Access.Owner ownerResolver, some user =>
    if user.ID = ownerResolver boundParams then none else some ApiError.NewForbidden

/-- Modelled from the spec: the re-check of one rule over the bound parameters:
it passes when its field is not changed, and when the current credential is
re-supplied and verified; an absent or wrong credential does not pass. -/
def ReauthRule.check (rule : ReauthRule) (identity : Option User)
    (boundParams : BoundParams) : Bool :=
  if boundParams.value rule.triggerField = "" then true
  else
    match identity with
    | none => false
    | some user => rule.requireCredential user boundParams

/-- Modelled from the spec: `Authorize(identity, boundParams)`, whose code is not
part of the sources: the capability check first, then the field-triggered
re-checks, of which a failure is a 401, even for a caller that has the
capability. -/
def Guard.Authorize (g : Guard) (identity : Option User) (boundParams : BoundParams) :
    Option ApiError :=
  match g.checkAccess identity boundParams with
  | some err => some err
  | none =>
    if g.fieldReauthRules.all (fun rule => rule.check identity boundParams) = true then none
    else some ApiError.NewUnauthorized

/-- The resolver of the owner of a user: the id that the request names. -/
def ownerFromID (boundParams : BoundParams) : String := boundParams.value "id"

/-- The check of a credential that the request carries as `current_password`. -/
def currentPasswordIs (password : String) (_user : User) (boundParams : BoundParams) : Bool :=
  decide (boundParams.value "current_password" = password)

/-- The guard of the update of a user: the owner only, and a change of the email
or of the password needs the current password. -/
def userUpdateGuard (password : String) : Guard :=
  { requiredAccess := Access.Owner ownerFromID,
    fieldReauthRules := [⟨"email", currentPasswordIs password⟩,
                         ⟨"new_password", currentPasswordIs password⟩] }

/-! ## Notions used to state the properties of the response emitter -/

namespace ApiRouter

/-- The white space that JSON allows around its tokens. -/
def isJSONSpace (c : Char) : Bool := c ∈ [' ', '\t', '\n', '\r']

/-- The value of a hexadecimal digit. -/
def hexValue (c : Char) : Option Nat :=
  if 48 ≤ c.toNat ∧ c.toNat ≤ 57 then some (c.toNat - 48)
  else if 97 ≤ c.toNat ∧ c.toNat ≤ 102 then some (c.toNat - 87)
  else if 65 ≤ c.toNat ∧ c.toNat ≤ 70 then some (c.toNat - 55)
  else none

/-- The character that a backslash and `e` write in a JSON string, for the
escapes of one character. -/
def simpleEscape (e : Char) : Option Char :=
  if e = '"' then some '"'
  else if e = '\\' then some '\\'
  else if e = '/' then some '/'
  else if e = 'b' then some '\x08'
  else if e = 'f' then some '\x0c'
  else if e = 'n' then some '\n'
  else if e = 'r' then some '\r'
  else if e = 't' then some '\t'
  else none

/-- A piece of a JSON string: a character, written as it is or by an escape of one
character, or a UTF-16 code unit, written by four hexadecimal digits. -/
inductive Piece where
  | char (c : Char)
  | unit (n : Nat)
deriving DecidableEq, Repr

/-- The pieces of a JSON string whose opening quote was read, up to its closing
quote, and the text after it; `none` when the text is no JSON string: it ends
before the closing quote, has a control character, or has a wrong escape. -/
def decodeString : List Char → Option (List Piece × List Char)
  | [] => none
  | c :: rest =>
    if c = '"' then some ([], rest)
    else if c = '\\' then
      match rest with
      | [] => none
      | e :: rest1 =>
        if e = 'u' then
          match rest1 with
          | a :: b :: c2 :: d :: rest2 =>
            match hexValue a, hexValue b, hexValue c2, hexValue d, decodeString rest2 with
            | some x1, some x2, some x3, some x4, some (ps, r) =>
              some (Piece.unit (((x1 * 16 + x2) * 16 + x3) * 16 + x4) :: ps, r)
            | _, _, _, _, _ => none
          | _ => none
        else
          match simpleEscape e, decodeString rest1 with
          | some ch, some (ps, r) => some (Piece.char ch :: ps, r)
          | _, _ => none
    else if c.toNat < 32 then none
    else
      match decodeString rest with
      | some (ps, r) => some (Piece.char c :: ps, r)
      | none => none

/-- The characters that pieces write: a high and a low surrogate code unit in a
row are one character, a surrogate alone is the replacement character. -/
def assemble : Option Nat → List Piece → List Char
  | none, [] => []
  | some _, [] => ['\ufffd']
  | none, Piece.char c :: ps => c :: assemble none ps
  | some _, Piece.char c :: ps => '\ufffd' :: c :: assemble none ps
  | none, Piece.unit n :: ps =>
    if 0xD800 ≤ n ∧ n ≤ 0xDBFF then assemble (some n) ps
    else if 0xDC00 ≤ n ∧ n ≤ 0xDFFF then '\ufffd' :: assemble none ps
    else Char.ofNat n :: assemble none ps
  | some high, Piece.unit n :: ps =>
    if 0xDC00 ≤ n ∧ n ≤ 0xDFFF then
      Char.ofNat (0x10000 + (high - 0xD800) * 0x400 + (n - 0xDC00)) :: assemble none ps
    else if 0xD800 ≤ n ∧ n ≤ 0xDBFF then '\ufffd' :: assemble (some n) ps
    else '\ufffd' :: Char.ofNat n :: assemble none ps

/-- The text without the white space at its start. -/
def skipSpace (cs : List Char) : List Char := cs.dropWhile isJSONSpace

/-- The JSON string at the start of a text, decoded, and the text after it. -/
def decodeJSONString (cs : List Char) : Option (String × List Char) :=
  match cs with
  | [] => none
  | c :: rest =>
    if c = '"' then
      match decodeString rest with
      | some (ps, r) => some (String.mk (assemble none ps), r)
      | none => none
    else none

/-- The string that a body carries, when the body is a well-formed JSON document
that is an object whose only member, `error`, is a string; `none` when the body
is no such document. -/
def decodeErrorObject (body : String) : Option String :=
  match skipSpace body.data with
  | [] => none
  | c1 :: r1 =>
    if c1 = '\x7b' then
      match decodeJSONString (skipSpace r1) with
      | none => none
      | some (key, r2) =>
        if key = "error" then
          match skipSpace r2 with
          | [] => none
          | c2 :: r3 =>
            if c2 = ':' then
              match decodeJSONString (skipSpace r3) with
              | none => none
              | some (val, r4) =>
                match skipSpace r4 with
                | [] => none
                | c3 :: r5 => if c3 = '\x7d' ∧ skipSpace r5 = [] then some val else none
            else none
        else none
    else none

/-- The text of the body that a response has received: its `Write` calls, in
order. -/
def bodyOf : List ResponseEvent → String
  | [] => ""
  | ResponseEvent.WriteHeader _ :: rest => bodyOf rest
  | ResponseEvent.Write body :: rest => body ++ bodyOf rest

/-- The body of the response that `Request.Error` gives for an error, on a
request whose response has received nothing yet. -/
def errorBody (debug : Bool) (e : GoError) : Option String :=
  (Error debug ⟨some ⟨[], ""⟩, []⟩ e).req.map fun req => bodyOf req.Response

end ApiRouter

/-! ## Properties of the response emitter -/

namespace ApiRouter

/-- C1, as amended: on a non-nil request, `Request.Error` answers every
500-class ApiError, whatever its message, with status 500 and a body that is
exactly `{"error":"Something went wrong"}` and a line feed; the response is the
same for any two 500-class errors, so it carries nothing of the message. -/
theorem Error_server_error_is_generic (debug : Bool) (req : Request) (log : List String)
    (err : ApiError) (h : err.code = 500) :
    (Error debug ⟨some req, log⟩ (GoError.api err)).req =
        some { req with Response := req.Response ++
          [ResponseEvent.WriteHeader 500,
           ResponseEvent.Write "\x7b\"error\":\"Something went wrong\"\x7d\n"] }
    ∧ ∀ err2 : ApiError, err2.code = 500 →
        (Error debug ⟨some req, log⟩ (GoError.api err2)).req =
          (Error debug ⟨some req, log⟩ (GoError.api err)).req := by
  have key : ∀ e : ApiError, e.code = 500 →
      (Error debug ⟨some req, log⟩ (GoError.api e)).req =
        some { req with Response := req.Response ++
          [ResponseEvent.WriteHeader 500,
           ResponseEvent.Write "\x7b\"error\":\"Something went wrong\"\x7d\n"] } := by
    intro e he
    simp only [Error, StatusInternalServerError, httpError, he, if_true]
    rfl
  exact ⟨key err h, fun err2 h2 => (key err2 h2).trans (key err h).symm⟩

/-- C1, at a database failure on a fresh response: the status is 500 and the body
the generic one, with its line feed. -/
theorem Error_server_error_is_generic_witness :
    (⟨500, "pq: connection refused"⟩ : ApiError).code = 500 ∧
    (Error false ⟨some ⟨[], "PATCH /organizations"⟩, []⟩
        (GoError.api ⟨500, "pq: connection refused"⟩)).req =
      some ⟨[ResponseEvent.WriteHeader 500,
             ResponseEvent.Write "\x7b\"error\":\"Something went wrong\"\x7d\n"],
            "PATCH /organizations"⟩ :=
  ⟨rfl, (Error_server_error_is_generic false ⟨[], "PATCH /organizations"⟩ []
    ⟨500, "pq: connection refused"⟩ rfl).1⟩

/-- C1 as stated fails: the body that `Request.Error` writes for a 500-class
error is not exactly `{"error":"Something went wrong"}`: a line feed follows. -/
theorem Error_server_error_body_has_line_feed :
    errorBody false (GoError.api ⟨500, "pq: connection refused"⟩) =
        some "\x7b\"error\":\"Something went wrong\"\x7d\n"
    ∧ errorBody false (GoError.api ⟨500, "pq: connection refused"⟩) ≠
        some "\x7b\"error\":\"Something went wrong\"\x7d" := by
  decide

end ApiRouter

/-! ## Properties of the validator -/

namespace SrcRouter

/-- Every error of `Validate` is a Bad Request. -/
theorem Validate_error_code (opts : ParamOptions) (value : String) (e : ApiError)
    (h : opts.Validate value = some e) : e.code = 400 := by
  unfold ParamOptions.Validate at h
  split_ifs at h
  · cases h; rfl
  · cases h; rfl
  · split at h
    · cases h; rfl
    · cases h

/-- A required field without a value is refused as missing, by name. -/
theorem Validate_missing (opts : ParamOptions) (h : opts.Required = true) :
    opts.Validate "" = some ⟨400, "parameter missing: " ++ opts.Name⟩ := by
  simp [ParamOptions.Validate, h, ApiError.NewBadRequest]

/-- A non-empty value passes `Validate` when neither the uuid nor the bool
option is set. -/
theorem Validate_plain (opts : ParamOptions) (value : String) (hv : value ≠ "")
    (hu : opts.ValidateUUID = false) (hb : opts.ValidateOptionalBool = false) :
    opts.Validate value = none := by
  simp [ParamOptions.Validate, hv, hu, hb]

/-- C2: with `Required` set, `Validate` of the empty string is the 400-class
error `parameter missing: <name>`, for every field name; and `Validate` of a
non-empty value is no error when neither the uuid nor the bool option is set. -/
theorem Validate_required (opts : ParamOptions) (h : opts.Required = true) :
    opts.Validate "" = some ⟨400, "parameter missing: " ++ opts.Name⟩
    ∧ ∀ value : String, value ≠ "" → opts.ValidateUUID = false →
        opts.ValidateOptionalBool = false → opts.Validate value = none :=
  ⟨Validate_missing opts h, fun value hv hu hb => Validate_plain opts value hv hu hb⟩

/-- C2, on the required field `id`: missing, it is refused by name; present, it
is accepted. -/
theorem Validate_required_witness :
    ({ Name := "id", Required := true } : ParamOptions).Validate "" =
        some ⟨400, "parameter missing: id"⟩
    ∧ ({ Name := "id", Required := true } : ParamOptions).Validate "42" = none :=
  ⟨(Validate_required { Name := "id", Required := true } rfl).1,
   (Validate_required { Name := "id", Required := true } rfl).2 "42" (by decide) rfl rfl⟩

/-- Changing the case of a character keeps it at its position of a UUIDv4. -/
theorem uuidShape_case (p : Char → Bool) (hp : p ∈ uuidShape) (c : Char) (h : p c = true) :
    p c.toUpper = true ∧ p (unicodeToLower c) = true := by
  have hex : ∀ x ∈ ['0', '1', '2', '3', '4', '5', '6', '7', '8', '9',
      'a', 'b', 'c', 'd', 'e', 'f', 'A', 'B', 'C', 'D', 'E', 'F'],
      isHexDigit x.toUpper = true ∧ isHexDigit (unicodeToLower x) = true := by decide
  have var : ∀ x ∈ ['8', '9', 'a', 'b', 'A', 'B'],
      isVariant x.toUpper = true ∧ isVariant (unicodeToLower x) = true := by decide
  have cases : p = isHexDigit ∨ p = isDash ∨ p = isVersion4 ∨ p = isVariant := by
    simp only [uuidShape, List.mem_append, List.mem_replicate, List.mem_singleton] at hp
    tauto
  rcases cases with rfl | rfl | rfl | rfl
  · exact hex c (of_decide_eq_true h)
  · have hc : c = '-' := of_decide_eq_true h
    subst hc; decide
  · have hc : c = '4' := of_decide_eq_true h
    subst hc; decide
  · exact var c (of_decide_eq_true h)

/-- A character list that has a shape keeps it under a map that keeps every
position. -/
theorem matchesShape_map (g : Char → Char) (shape : List (Char → Bool))
    (hg : ∀ p ∈ shape, ∀ c, p c = true → p (g c) = true) (cs : List Char)
    (h : matchesShape shape cs = true) : matchesShape shape (cs.map g) = true := by
  induction shape generalizing cs with
  | nil =>
    cases cs with
    | nil => rfl
    | cons c cs => simp [matchesShape] at h
  | cons p ps ih =>
    cases cs with
    | nil => simp [matchesShape] at h
    | cons c cs =>
      simp only [matchesShape, Bool.and_eq_true] at h
      simp only [List.map, matchesShape, Bool.and_eq_true]
      exact ⟨hg p (List.mem_cons_self p ps) c h.1,
        ih (fun q hq => hg q (List.mem_cons_of_mem p hq)) cs h.2⟩

/-- A valid UUID stays valid in upper case and in lower case. -/
theorem IsValidUUID_case (value : String) (h : IsValidUUID value = true) :
    IsValidUUID (ToUpper value) = true ∧ IsValidUUID (ToLower value) = true :=
  ⟨matchesShape_map Char.toUpper uuidShape (fun p hp c hc => (uuidShape_case p hp c hc).1) _ h,
   matchesShape_map unicodeToLower uuidShape (fun p hp c hc => (uuidShape_case p hp c hc).2) _ h⟩

/-- A valid UUID is not the empty string. -/
theorem IsValidUUID_ne_empty (value : String) (h : IsValidUUID value = true) : value ≠ "" := by
  rintro rfl
  exact absurd h (by decide)

/-- With the uuid option and without the bool option, a valid UUID passes. -/
theorem Validate_valid_uuid (opts : ParamOptions) (hb : opts.ValidateOptionalBool = false)
    (value : String) (h : IsValidUUID value = true) : opts.Validate value = none := by
  have hv := IsValidUUID_ne_empty value h
  simp [ParamOptions.Validate, hv, hb, h]

/-- C3, as amended: with `ValidateUUID` set, `Validate` of a non-empty string
that is not a valid UUIDv4 is the 400-class error
`not a valid uuid: <name> - <value>`; and, when the bool option is not set as
well, `Validate` of a valid dashed UUIDv4 is no error, in the case it is written
in, in upper case and in lower case. -/
theorem Validate_uuid (opts : ParamOptions) (h : opts.ValidateUUID = true) (value : String)
    (hv : value ≠ "") :
    (IsValidUUID value = false →
      opts.Validate value =
        some ⟨400, "not a valid uuid: " ++ opts.Name ++ " - " ++ value⟩)
    ∧ (IsValidUUID value = true → opts.ValidateOptionalBool = false →
        opts.Validate value = none ∧ opts.Validate (ToUpper value) = none
          ∧ opts.Validate (ToLower value) = none) := by
  constructor
  · intro hu
    simp [ParamOptions.Validate, hv, h, hu, ApiError.NewBadRequest]
  · intro hu hb
    exact ⟨Validate_valid_uuid opts hb value hu,
      Validate_valid_uuid opts hb _ (IsValidUUID_case value hu).1,
      Validate_valid_uuid opts hb _ (IsValidUUID_case value hu).2⟩

/-- C3, on the uuid field `id`: `xxx` is refused citing `id`, and
`aa44ca86-553e-4e16-8c30-2e50e63f7eaa` is accepted, in upper case too. -/
theorem Validate_uuid_witness :
    ({ Name := "id", Required := true, ValidateUUID := true } : ParamOptions).Validate "xxx" =
        some ⟨400, "not a valid uuid: id - xxx"⟩
    ∧ ({ Name := "id", Required := true, ValidateUUID := true } : ParamOptions).Validate
        "aa44ca86-553e-4e16-8c30-2e50e63f7eaa" = none
    ∧ ({ Name := "id", Required := true, ValidateUUID := true } : ParamOptions).Validate
        (ToUpper "aa44ca86-553e-4e16-8c30-2e50e63f7eaa") = none :=
  ⟨(Validate_uuid { Name := "id", Required := true, ValidateUUID := true } rfl "xxx"
      (by decide)).1 (by decide),
   ((Validate_uuid { Name := "id", Required := true, ValidateUUID := true } rfl
      "aa44ca86-553e-4e16-8c30-2e50e63f7eaa" (by decide)).2 (by decide) rfl).1,
   ((Validate_uuid { Name := "id", Required := true, ValidateUUID := true } rfl
      "aa44ca86-553e-4e16-8c30-2e50e63f7eaa" (by decide)).2 (by decide) rfl).2.1⟩

/-- C3 as stated fails: with the uuid and the bool options both set, the valid
UUIDv4 `aa44ca86-553e-4e16-8c30-2e50e63f7eaa` is refused, as not a bool. -/
theorem Validate_uuid_with_bool_refused :
    IsValidUUID "aa44ca86-553e-4e16-8c30-2e50e63f7eaa" = true
    ∧ ({ Name := "id", ValidateUUID := true, ValidateOptionalBool := true } :
        ParamOptions).Validate "aa44ca86-553e-4e16-8c30-2e50e63f7eaa" =
      some ⟨400, "not a valid bool: id - aa44ca86-553e-4e16-8c30-2e50e63f7eaa"⟩ := by
  decide

/-- C4, as amended: with `ValidateOptionalBool` set and `Required` unset,
`Validate` accepts the empty string; when the uuid option is not set as well, it
accepts every boolean literal; and for every other non-empty string it returns a
400-class error that names the field and the value. -/
theorem Validate_optional_bool (opts : ParamOptions) (h : opts.ValidateOptionalBool = true)
    (hr : opts.Required = false) :
    opts.Validate "" = none
    ∧ (opts.ValidateUUID = false →
        ∀ v ∈ ["1", "t", "T", "TRUE", "true", "True", "0", "f", "F", "FALSE", "false", "False"],
          opts.Validate v = none)
    ∧ (∀ value : String, value ≠ "" →
        value ∉ ["1", "t", "T", "TRUE", "true", "True", "0", "f", "F", "FALSE", "false", "False"] →
        opts.Validate value = some ⟨400,
          (if opts.ValidateUUID = true ∧ IsValidUUID value = false then "not a valid uuid: "
            else "not a valid bool: ") ++ opts.Name ++ " - " ++ value⟩) := by
  refine ⟨?_, ?_, ?_⟩
  · simp [ParamOptions.Validate, hr]
  · intro hu v hmem
    have hne : v ≠ "" := by
      rintro rfl
      exact absurd hmem (by decide)
    have hp : ParseBool v ≠ none := by
      simp only [ParseBool]
      simp only [List.mem_cons, List.mem_singleton, List.not_mem_nil, or_false] at hmem
      rcases hmem with rfl | rfl | rfl | rfl | rfl | rfl | rfl | rfl | rfl | rfl | rfl | rfl <;>
        decide
    cases hpb : ParseBool v with
    | none => exact absurd hpb hp
    | some b => simp [ParamOptions.Validate, hne, hu, h, hpb]
  · intro value hne hnot
    have hpb : ParseBool value = none := by
      simp only [ParseBool]
      simp only [List.mem_cons, List.mem_singleton, List.not_mem_nil, or_false, not_or] at hnot
      obtain ⟨h1, h2, h3, h4, h5, h6, h7, h8, h9, h10, h11, h12⟩ := hnot
      simp [h1, h2, h3, h4, h5, h6, h7, h8, h9, h10, h11, h12]
    by_cases hu : opts.ValidateUUID = true ∧ IsValidUUID value = false
    · simp [ParamOptions.Validate, hne, hu, ApiError.NewBadRequest]
    · unfold ParamOptions.Validate
      rw [if_neg (fun hc => hne hc.1), if_pos hne, if_neg hu, if_pos h, hpb, if_neg hu]
      rfl

/-- C4, on the optional bool field `in_trash`: the empty string and the literal
`0` are accepted, `not-a-boolean` is refused citing the field and the value. -/
theorem Validate_optional_bool_witness :
    ({ Name := "in_trash", ValidateOptionalBool := true } : ParamOptions).Validate "" = none
    ∧ ({ Name := "in_trash", ValidateOptionalBool := true } : ParamOptions).Validate "0" = none
    ∧ ({ Name := "in_trash", ValidateOptionalBool := true } : ParamOptions).Validate
        "not-a-boolean" = some ⟨400, "not a valid bool: in_trash - not-a-boolean"⟩ :=
  ⟨(Validate_optional_bool { Name := "in_trash", ValidateOptionalBool := true } rfl rfl).1,
   (Validate_optional_bool { Name := "in_trash", ValidateOptionalBool := true } rfl rfl).2.1
      rfl "0" (by decide),
   (Validate_optional_bool { Name := "in_trash", ValidateOptionalBool := true } rfl rfl).2.2
      "not-a-boolean" (by decide) (by decide)⟩

/-- C4 as stated fails: with the bool and the uuid options both set, the boolean
literal `true` is refused, as not a UUID. -/
theorem Validate_bool_with_uuid_refused :
    ({ Name := "in_trash", ValidateUUID := true, ValidateOptionalBool := true } :
        ParamOptions).Validate "true" =
      some ⟨400, "not a valid uuid: in_trash - true"⟩ := by
  decide

/-! ## Properties of the binder -/

/-- What `setParamValue` does on a field that is not ignored, in terms of the
resolved options and of the value. -/
theorem setParamValue_eq (param : Value) (name : String) (tags : StructTag) (source : Values)
    (hign : (NewParamOptions tags).Ignore = false) :
    setParamValue param name tags source =
      match (fieldOptions name tags).Validate (fieldValue name tags source) with
      | some err => (param, some err)
      | none =>
        if fieldValue name tags source ≠ "" then
          match param with
          | Value.bool _ =>
            match ParseBool (fieldValue name tags source) with
            | none => (param, some (ApiError.NewBadRequest
                ("value [" ++ fieldValue name tags source ++ "] for parameter [" ++
                  (fieldOptions name tags).Name ++ "] is invalid")))
            | some v => (Value.bool v, none)
          | Value.string _ => (Value.string (fieldValue name tags source), none)
          | Value.int _ =>
            match ParseInt (fieldValue name tags source) with
            | none => (param, some (ApiError.NewBadRequest
                ("value [" ++ fieldValue name tags source ++ "] for parameter [" ++
                  (fieldOptions name tags).Name ++ "] is invalid")))
            | some v => (Value.int v, none)
          | Value.other _ _ => (param, none)
        else (param, none) := by
  have hneg : ¬ (NewParamOptions tags).Ignore = true := by simp [hign]
  unfold setParamValue
  dsimp only
  rw [if_neg hneg]
  rfl

/-- Every error of `setParamValue` is a Bad Request. -/
theorem setParamValue_error_code (param : Value) (name : String) (tags : StructTag)
    (source : Values) (v : Value) (e : ApiError)
    (h : setParamValue param name tags source = (v, some e)) : e.code = 400 := by
  by_cases hign : (NewParamOptions tags).Ignore = true
  · simp [setParamValue, hign] at h
  · rw [setParamValue_eq param name tags source (by simpa using hign)] at h
    split at h
    · next err herr =>
      cases h
      exact Validate_error_code _ _ _ herr
    · split_ifs at h
      · split at h
        · split at h
          · cases h; rfl
          · cases h
        · cases h
        · split at h
          · cases h; rfl
          · cases h
        · cases h
      · cases h

/-- A field that can be set and whose source exists fails with a Bad Request
only. -/
theorem parseField_error_code (byPointer : Bool) (sources : Sources) (f f1 : Field)
    (e : ApiError) (hset : f.CanSet byPointer = true)
    (hsrc : sources.lookup (paramLocation f.Tag) ≠ none)
    (h : parseField byPointer sources f = (f1, some e)) : e.code = 400 := by
  unfold parseField at h
  rw [if_neg (by simp [hset])] at h
  cases hl : sources.lookup (paramLocation f.Tag) with
  | none => exact absurd hl hsrc
  | some source =>
    rw [hl] at h
    dsimp only at h
    cases hp : f.param with
    | none => rw [hp] at h; cases h
    | some param =>
      rw [hp] at h
      dsimp only at h
      cases hs : setParamValue param f.Name f.Tag source with
      | mk v err =>
        rw [hs] at h
        cases h
        exact setParamValue_error_code _ _ _ _ _ _ hs

/-- One turn of the loop. -/
theorem parseFields_cons (byPointer : Bool) (sources : Sources) (g : Field)
    (rest : List Field) :
    parseFields byPointer sources (g :: rest) =
      match parseField byPointer sources g with
      | (f1, some err) => (f1 :: rest, some err)
      | (f1, none) =>
        match parseFields byPointer sources rest with
        | (rest1, err) => (f1 :: rest1, err) := rfl

/-- The loop over fields that can be set and whose sources exist fails with a
Bad Request only. -/
theorem parseFields_error_code (byPointer : Bool) (sources : Sources) (fields : List Field)
    (hsafe : ∀ g ∈ fields, g.CanSet byPointer = true ∧
      sources.lookup (paramLocation g.Tag) ≠ none)
    (e : ApiError) (h : (parseFields byPointer sources fields).2 = some e) : e.code = 400 := by
  induction fields with
  | nil => simp [parseFields] at h
  | cons g rest ih =>
    rw [parseFields_cons] at h
    cases hg : parseField byPointer sources g with
    | mk g1 err =>
      rw [hg] at h
      cases err with
      | some e1 =>
        have he : e1 = e := by simpa using h
        subst he
        exact parseField_error_code byPointer sources g g1 e1
          (hsafe g (List.mem_cons_self g rest)).1 (hsafe g (List.mem_cons_self g rest)).2 hg
      | none =>
        exact ih (fun x hx => hsafe x (List.mem_cons_of_mem g hx)) h

/-- The loop stops at the first error: an error among the first fields is the
error of the whole. -/
theorem parseFields_append_error (byPointer : Bool) (sources : Sources)
    (pre rest : List Field) (e : ApiError)
    (h : (parseFields byPointer sources pre).2 = some e) :
    (parseFields byPointer sources (pre ++ rest)).2 = some e := by
  induction pre with
  | nil => simp [parseFields] at h
  | cons g pre ih =>
    rw [List.cons_append, parseFields_cons]
    rw [parseFields_cons] at h
    cases hg : parseField byPointer sources g with
    | mk g1 err =>
      rw [hg] at h
      cases err with
      | some e1 => exact h
      | none => exact ih h

/-- The loop goes on after fields without error: the error of the whole is the
error of the remaining fields. -/
theorem parseFields_append_ok (byPointer : Bool) (sources : Sources)
    (pre rest : List Field) (h : (parseFields byPointer sources pre).2 = none) :
    (parseFields byPointer sources (pre ++ rest)).2 =
      (parseFields byPointer sources rest).2 := by
  induction pre with
  | nil => rfl
  | cons g pre ih =>
    rw [List.cons_append, parseFields_cons]
    rw [parseFields_cons] at h
    cases hg : parseField byPointer sources g with
    | mk g1 err =>
      rw [hg] at h
      cases err with
      | some e1 => cases h
      | none => exact ih h

/-- The error of `ParseParams` is the error of its loop. -/
theorem ParseParams_error (params : Params) (sources : Sources) :
    (ParseParams ⟨params, Except.ok sources⟩).2 =
      (parseFields params.byPointer sources params.fields).2 := rfl

/-- A field that can be set has a value to set. -/
theorem Field.param_of_CanSet (byPointer : Bool) (f : Field) (h : f.CanSet byPointer = true) :
    ∃ param, f.param = some param := by
  unfold Field.CanSet at h
  unfold Field.param
  cases hs : f.slot with
  | direct v => exact ⟨v, rfl⟩
  | pointer target =>
    cases target with
    | none => rw [hs] at h; cases h
    | some v => exact ⟨v, rfl⟩

/-- What one turn of the loop does on a field that can be set and whose source
exists. -/
theorem parseField_eq (byPointer : Bool) (sources : Sources) (f : Field) (source : Values)
    (param : Value) (hset : f.CanSet byPointer = true)
    (hsrc : sources.lookup (paramLocation f.Tag) = some source) (hp : f.param = some param) :
    parseField byPointer sources f =
      (f.set (setParamValue param f.Name f.Tag source).1,
        (setParamValue param f.Name f.Tag source).2) := by
  unfold parseField
  rw [if_neg (by simp [hset]), hsrc]
  dsimp only
  rw [hp]

/-- The resolved options keep the flags of the tag. -/
theorem fieldOptions_flags (name : String) (tags : StructTag) :
    (fieldOptions name tags).Required = (NewParamOptions tags).Required
    ∧ (fieldOptions name tags).Trim = (NewParamOptions tags).Trim
    ∧ (fieldOptions name tags).ValidateUUID = (NewParamOptions tags).ValidateUUID
    ∧ (fieldOptions name tags).ValidateOptionalBool =
        (NewParamOptions tags).ValidateOptionalBool := by
  unfold fieldOptions
  split_ifs <;> exact ⟨rfl, rfl, rfl, rfl⟩

/-- A required field without a value and without a default is refused by
`setParamValue` as missing. -/
theorem setParamValue_required_missing (param : Value) (name : String) (tags : StructTag)
    (source : Values) (hign : (NewParamOptions tags).Ignore = false)
    (hreq : (NewParamOptions tags).Required = true)
    (hempty : extractedValue name tags source = "") (hdef : tags.Get "default" = "") :
    setParamValue param name tags source =
      (param, some ⟨400, "parameter missing: " ++ (fieldOptions name tags).Name⟩) := by
  have hval : fieldValue name tags source = "" := by
    unfold fieldValue
    rw [if_pos hempty, hdef]
  have hr : (fieldOptions name tags).Required = true := by
    rw [(fieldOptions_flags name tags).1, hreq]
  rw [setParamValue_eq param name tags source hign, hval, Validate_missing _ hr]

/-- C5, as amended: when a non-ignored field marked required, with no default
value, has an empty value after transformation (absent from its source, empty,
or whitespace-only when trim is set), and that field and the fields declared
before it can be set and have their source in the Source Set, `ParseParams`
returns a 400-class error. -/
theorem ParseParams_required_missing (params : Params) (sources : Sources)
    (pre post : List Field) (f : Field) (source : Values)
    (hfields : params.fields = pre ++ f :: post)
    (hpre : ∀ g ∈ pre, g.CanSet params.byPointer = true ∧
      sources.lookup (paramLocation g.Tag) ≠ none)
    (hset : f.CanSet params.byPointer = true)
    (hsrc : sources.lookup (paramLocation f.Tag) = some source)
    (hign : (NewParamOptions f.Tag).Ignore = false)
    (hreq : (NewParamOptions f.Tag).Required = true)
    (hempty : extractedValue f.Name f.Tag source = "")
    (hdef : f.Tag.Get "default" = "") :
    ∃ e, (ParseParams ⟨params, Except.ok sources⟩).2 = some e ∧ e.code = 400 := by
  rw [ParseParams_error, hfields]
  cases hp : (parseFields params.byPointer sources pre).2 with
  | some e =>
    exact ⟨e, parseFields_append_error _ _ _ _ e hp,
      parseFields_error_code _ _ pre hpre e hp⟩
  | none =>
    rw [parseFields_append_ok _ _ _ _ hp, parseFields_cons]
    obtain ⟨param, hparam⟩ := Field.param_of_CanSet _ f hset
    rw [parseField_eq _ _ f source param hset hsrc hparam,
      setParamValue_required_missing param f.Name f.Tag source hign hreq hempty hdef]
    exact ⟨_, rfl, rfl⟩

/-- C5, on the update parameters of an organization: the name is blank, to be
trimmed, and the required `id` is absent from the url. -/
theorem ParseParams_required_missing_witness :
    ∃ e, (ParseParams
      ⟨⟨true, [⟨"Name", [("json", "name"), ("params", "trim"), ("from", "form")], true,
                  Slot.direct (Value.string "")⟩,
               ⟨"ID", [("json", "id"), ("params", "required,uuid")], true,
                  Slot.direct (Value.string "")⟩]⟩,
       Except.ok [("url", []), ("form", [("name", ["     "])])]⟩).2 = some e ∧ e.code = 400 :=
  ParseParams_required_missing
    ⟨true, [⟨"Name", [("json", "name"), ("params", "trim"), ("from", "form")], true,
                Slot.direct (Value.string "")⟩,
             ⟨"ID", [("json", "id"), ("params", "required,uuid")], true,
                Slot.direct (Value.string "")⟩]⟩
    [("url", []), ("form", [("name", ["     "])])]
    [⟨"Name", [("json", "name"), ("params", "trim"), ("from", "form")], true,
        Slot.direct (Value.string "")⟩]
    []
    ⟨"ID", [("json", "id"), ("params", "required,uuid")], true, Slot.direct (Value.string "")⟩
    [] rfl (by decide) rfl rfl rfl rfl (by decide) rfl

/-- C5 as stated fails: a required field that is absent from its source and has
a default value binds without error; and a required field that is absent is
not reported with a 400-class error when a field declared before it names a
source that does not exist. -/
theorem ParseParams_required_missing_not_400 :
    ParseParams
      ⟨⟨true, [⟨"Page", [("json", "page"), ("params", "required"), ("default", "1")], true,
                  Slot.direct (Value.int 0)⟩]⟩,
       Except.ok [("url", [])]⟩ =
      (⟨true, [⟨"Page", [("json", "page"), ("params", "required"), ("default", "1")], true,
                  Slot.direct (Value.int 1)⟩]⟩, none)
    ∧ (ParseParams
      ⟨⟨true, [⟨"Token", [("json", "token"), ("from", "cookie")], true,
                  Slot.direct (Value.string "")⟩,
               ⟨"ID", [("json", "id"), ("params", "required")], true,
                  Slot.direct (Value.string "")⟩]⟩,
       Except.ok [("url", [])]⟩).2 =
      some ⟨500, "source [cookie] for field [Token] does not exists"⟩ := by
  decide

/-- C6 fails on the code: a field whose json naming token is `-` makes the bind
fail with a 500-class error when its source name is no key of the Source Set,
and when it is unexported; without that field the same bind succeeds. -/
theorem ParseParams_ignored_field_fails :
    (ParseParams
      ⟨⟨true, [⟨"ID", [("json", "id"), ("params", "required")], true,
                  Slot.direct (Value.string "")⟩,
               ⟨"Internal", [("json", "-"), ("from", "cookie")], true,
                  Slot.direct (Value.string "kept")⟩]⟩,
       Except.ok [("url", [("id", ["7"])])]⟩).2 =
      some ⟨500, "source [cookie] for field [Internal] does not exists"⟩
    ∧ (ParseParams
      ⟨⟨true, [⟨"ID", [("json", "id"), ("params", "required")], true,
                  Slot.direct (Value.string "")⟩,
               ⟨"cache", [("json", "-")], false, Slot.direct (Value.string "kept")⟩]⟩,
       Except.ok [("url", [("id", ["7"])])]⟩).2 =
      some ⟨500, "field [cache] could not be set"⟩
    ∧ (ParseParams
      ⟨⟨true, [⟨"ID", [("json", "id"), ("params", "required")], true,
                  Slot.direct (Value.string "")⟩]⟩,
       Except.ok [("url", [("id", ["7"])])]⟩).2 = none := by
  decide

/-- C7, as amended: when the resolved source name of a field (its from tag in
lower case, or `url` when the tag is empty) is not a key of the Source Set, and
the fields declared before it bind without error, `ParseParams` fails with a
500-class error, whatever the sources hold; for a field that can be set the
error names the source and the field. -/
theorem ParseParams_missing_source (params : Params) (sources : Sources)
    (pre post : List Field) (f : Field)
    (hfields : params.fields = pre ++ f :: post)
    (hpre : (parseFields params.byPointer sources pre).2 = none)
    (hsrc : sources.lookup (paramLocation f.Tag) = none) :
    ∃ e, (ParseParams ⟨params, Except.ok sources⟩).2 = some e ∧ e.code = 500
      ∧ (f.CanSet params.byPointer = true →
          e.message = "source [" ++ paramLocation f.Tag ++ "] for field [" ++ f.Name ++
            "] does not exists") := by
  rw [ParseParams_error, hfields, parseFields_append_ok _ _ _ _ hpre, parseFields_cons]
  unfold parseField
  by_cases hset : f.CanSet params.byPointer = true
  · rw [if_neg (by simp [hset]), hsrc]
    exact ⟨_, rfl, rfl, fun _ => rfl⟩
  · rw [if_pos (by simpa using hset)]
    exact ⟨_, rfl, rfl, fun h => absurd h hset⟩

/-- C7, on a field read from the source `cookie`, which the Source Set lacks,
declared after a field that binds. -/
theorem ParseParams_missing_source_witness :
    ∃ e, (ParseParams
      ⟨⟨true, [⟨"ID", [("json", "id"), ("params", "required")], true,
                  Slot.direct (Value.string "")⟩,
               ⟨"Token", [("json", "token"), ("from", "cookie")], true,
                  Slot.direct (Value.string "")⟩]⟩,
       Except.ok [("url", [("id", ["7"]), ("token", ["abc"])]),
                  ("form", [("token", ["not-used"])])]⟩).2 = some e ∧ e.code = 500
      ∧ (Field.CanSet true ⟨"Token", [("json", "token"), ("from", "cookie")], true,
                  Slot.direct (Value.string "")⟩ = true →
          e.message = "source [" ++ paramLocation [("json", "token"), ("from", "cookie")] ++
            "] for field [" ++ "Token" ++ "] does not exists") :=
  ParseParams_missing_source
    ⟨true, [⟨"ID", [("json", "id"), ("params", "required")], true,
                Slot.direct (Value.string "")⟩,
             ⟨"Token", [("json", "token"), ("from", "cookie")], true,
                Slot.direct (Value.string "")⟩]⟩
    [("url", [("id", ["7"]), ("token", ["abc"])]), ("form", [("token", ["not-used"])])]
    [⟨"ID", [("json", "id"), ("params", "required")], true, Slot.direct (Value.string "")⟩]
    []
    ⟨"Token", [("json", "token"), ("from", "cookie")], true, Slot.direct (Value.string "")⟩
    rfl (by decide) (by decide)

/-- C7 as stated fails: a from tag `URL` is no key of a Source Set that has the
key `url`, yet the bind succeeds, the tag being read in lower case, and so for
the tag `ÜRL` and the key `ürl`; and a field whose source is missing does not
make the bind fail with a 500-class error when a field declared before it fails
first, here with a 400-class error. -/
theorem ParseParams_missing_source_not_500 :
    List.lookup "URL" ([("url", [("id", ["7"])])] : Sources) = none
    ∧ ParseParams
      ⟨⟨true, [⟨"ID", [("json", "id"), ("from", "URL")], true,
                  Slot.direct (Value.string "")⟩]⟩,
       Except.ok [("url", [("id", ["7"])])]⟩ =
      (⟨true, [⟨"ID", [("json", "id"), ("from", "URL")], true,
                  Slot.direct (Value.string "7")⟩]⟩, none)
    ∧ ParseParams
      ⟨⟨true, [⟨"ID", [("json", "id"), ("from", "ÜRL")], true,
                  Slot.direct (Value.string "")⟩]⟩,
       Except.ok [("ürl", [("id", ["7"])])]⟩ =
      (⟨true, [⟨"ID", [("json", "id"), ("from", "ÜRL")], true,
                  Slot.direct (Value.string "7")⟩]⟩, none)
    ∧ (ParseParams
      ⟨⟨true, [⟨"ID", [("json", "id"), ("params", "required")], true,
                  Slot.direct (Value.string "")⟩,
               ⟨"Token", [("json", "token"), ("from", "cookie")], true,
                  Slot.direct (Value.string "")⟩]⟩,
       Except.ok [("url", [])]⟩).2 = some ⟨400, "parameter missing: id"⟩ := by
  decide

/-- A value that `ParseInt` returns is a signed 64-bit integer. -/
theorem ParseInt_range (str : String) (i : Int) (h : ParseInt str = some i) :
    -(2 : Int) ^ 63 ≤ i ∧ i < (2 : Int) ^ 63 := by
  unfold ParseInt at h
  dsimp only at h
  split_ifs at h with h1 h2 h3 h4
  · have hi := Option.some.inj h
    have h3z : ((digitsValue _ : Nat) : Int) ≤ ((2 ^ 63 : Nat) : Int) := Int.ofNat_le.mpr h3
    norm_num at h3z ⊢
    omega
  · have hi := Option.some.inj h
    have h4z : ((digitsValue _ : Nat) : Int) < ((2 ^ 63 : Nat) : Int) := Int.ofNat_lt.mpr h4
    norm_num at h4z ⊢
    omega

/-- The literals that `ParseBool` reads as true. -/
theorem ParseBool_of_true (v : String) (h : v ∈ ["1", "t", "T", "TRUE", "true", "True"]) :
    ParseBool v = some true := by
  unfold ParseBool
  rw [if_pos h]

/-- The literals that `ParseBool` reads as false. -/
theorem ParseBool_of_false (v : String)
    (h : v ∈ ["0", "f", "F", "FALSE", "false", "False"]) : ParseBool v = some false := by
  have hnot : v ∉ ["1", "t", "T", "TRUE", "true", "True"] := by
    simp only [List.mem_cons, List.mem_singleton, List.not_mem_nil, or_false] at h
    rcases h with rfl | rfl | rfl | rfl | rfl | rfl <;> decide
  unfold ParseBool
  rw [if_neg hnot, if_pos h]

/-- Any other string is no boolean for `ParseBool`. -/
theorem ParseBool_of_other (v : String) (h1 : v ∉ ["1", "t", "T", "TRUE", "true", "True"])
    (h2 : v ∉ ["0", "f", "F", "FALSE", "false", "False"]) : ParseBool v = none := by
  unfold ParseBool
  rw [if_neg h1, if_neg h2]

/-- The loop over the digits computes the number they write after the digits
read so far. -/
theorem foldl_digits (ds : List Char) (acc : Nat) :
    ds.foldl (fun a c => 10 * a + (c.toNat - 48)) acc =
      Nat.ofDigits 10 ((ds.map fun c => c.toNat - 48).reverse ++ [acc]) := by
  induction ds generalizing acc with
  | nil => simp [Nat.ofDigits]
  | cons c t ih =>
    rw [List.foldl_cons, ih, List.map_cons, List.reverse_cons, List.append_assoc,
      Nat.ofDigits_append, Nat.ofDigits_append]
    simp [Nat.ofDigits]
    ring

/-- The value of digits is the number they write. -/
theorem digitsValue_eq (ds : List Char) : digitsValue ds = decimalValue ds := by
  unfold digitsValue decimalValue
  rw [foldl_digits, Nat.ofDigits_append]
  simp [Nat.ofDigits]

/-- What `ParseInt` does, by the first character. -/
theorem ParseInt_eq (s : String) :
    ParseInt s =
      match s.data with
      | [] => none
      | c :: rest =>
        if c = '+' then
          (if rest = [] ∨ rest.all isDigit = false then none
           else if digitsValue rest < 2 ^ 63 then some (digitsValue rest : Int) else none)
        else if c = '-' then
          (if rest = [] ∨ rest.all isDigit = false then none
           else if digitsValue rest ≤ 2 ^ 63 then some (-(digitsValue rest : Int)) else none)
        else
          (if (c :: rest).all isDigit = false then none
           else if digitsValue (c :: rest) < 2 ^ 63 then some (digitsValue (c :: rest) : Int)
           else none) := by
  unfold ParseInt
  cases hs : s.data with
  | nil => simp
  | cons c rest =>
    by_cases h1 : c = '+'
    · subst h1; simp
    · by_cases h2 : c = '-'
      · subst h2; simp
      · simp [h1, h2]

/-- Decimal digits are digits for `ParseInt`. -/
theorem all_isDigit (digits : List Char)
    (hall : ∀ c ∈ digits, c ∈ ['0', '1', '2', '3', '4', '5', '6', '7', '8', '9']) :
    digits.all isDigit = true := by
  rw [List.all_eq_true]
  intro c hc
  exact decide_eq_true (hall c hc)

/-- A decimal digit is no sign. -/
theorem digit_ne_sign (c : Char)
    (h : c ∈ ['0', '1', '2', '3', '4', '5', '6', '7', '8', '9']) : c ≠ '+' ∧ c ≠ '-' := by
  simp only [List.mem_cons, List.mem_singleton, List.not_mem_nil, or_false] at h
  rcases h with rfl | rfl | rfl | rfl | rfl | rfl | rfl | rfl | rfl | rfl <;> decide

/-- What `ParseInt` gives on decimal digits, bare or after a sign. -/
theorem ParseInt_digits (digits : List Char) (hne : digits ≠ [])
    (hall : ∀ c ∈ digits, c ∈ ['0', '1', '2', '3', '4', '5', '6', '7', '8', '9']) :
    ParseInt (String.mk digits) =
        (if decimalValue digits < 2 ^ 63 then some (decimalValue digits : Int) else none)
    ∧ ParseInt (String.mk ('+' :: digits)) =
        (if decimalValue digits < 2 ^ 63 then some (decimalValue digits : Int) else none)
    ∧ ParseInt (String.mk ('-' :: digits)) =
        (if decimalValue digits ≤ 2 ^ 63 then some (-(decimalValue digits : Int))
          else none) := by
  have hd := all_isDigit digits hall
  have hcond : ¬ (digits = [] ∨ digits.all isDigit = false) := by simp [hne, hd]
  refine ⟨?_, ?_, ?_⟩
  · cases digits with
    | nil => exact absurd rfl hne
    | cons c rest =>
      obtain ⟨h1, h2⟩ := digit_ne_sign c (hall c (List.mem_cons_self c rest))
      rw [ParseInt_eq]
      dsimp only
      rw [if_neg h1, if_neg h2, if_neg (by simp [hd]), digitsValue_eq]
  · rw [ParseInt_eq]
    dsimp only
    rw [if_pos rfl, if_neg hcond, digitsValue_eq]
  · rw [ParseInt_eq]
    dsimp only
    rw [if_neg (by decide), if_pos rfl, if_neg hcond, digitsValue_eq]

/-- A string that is not decimal digits, bare or after a sign, is no integer for
`ParseInt`. -/
theorem ParseInt_of_other (value : String)
    (h : ∀ digits : List Char, digits ≠ [] →
      (∀ c ∈ digits, c ∈ ['0', '1', '2', '3', '4', '5', '6', '7', '8', '9']) →
      value ≠ String.mk digits ∧ value ≠ String.mk ('+' :: digits)
        ∧ value ≠ String.mk ('-' :: digits)) :
    ParseInt value = none := by
  have hmem : ∀ ds : List Char, ds.all isDigit = true →
      ∀ c ∈ ds, c ∈ ['0', '1', '2', '3', '4', '5', '6', '7', '8', '9'] := by
    intro ds hds c hc
    exact of_decide_eq_true (List.all_eq_true.mp hds c hc)
  rw [ParseInt_eq]
  cases hs : value.data with
  | nil => rfl
  | cons c rest =>
    have hv : value = String.mk (c :: rest) := by
      cases value with
      | mk data => exact congrArg String.mk hs
    dsimp only
    by_cases h1 : c = '+'
    · rw [if_pos h1]
      by_cases hc : rest = [] ∨ rest.all isDigit = false
      · rw [if_pos hc]
      · have hne : rest ≠ [] := fun hr => hc (Or.inl hr)
        have hd : rest.all isDigit = true := by
          cases hb : rest.all isDigit with
          | true => rfl
          | false => exact absurd (Or.inr hb) hc
        exact absurd (h1 ▸ hv) (h rest hne (hmem rest hd)).2.1
    · rw [if_neg h1]
      by_cases h2 : c = '-'
      · rw [if_pos h2]
        by_cases hc : rest = [] ∨ rest.all isDigit = false
        · rw [if_pos hc]
        · have hne : rest ≠ [] := fun hr => hc (Or.inl hr)
          have hd : rest.all isDigit = true := by
            cases hb : rest.all isDigit with
            | true => rfl
            | false => exact absurd (Or.inr hb) hc
          exact absurd (h2 ▸ hv) (h rest hne (hmem rest hd)).2.2
      · rw [if_neg h2]
        by_cases hc : (c :: rest).all isDigit = false
        · rw [if_pos hc]
        · have hd : (c :: rest).all isDigit = true := by
            cases hb : (c :: rest).all isDigit with
            | true => rfl
            | false => exact absurd hb hc
          exact absurd hv (h (c :: rest) (List.cons_ne_nil c rest) (hmem _ hd)).1

/-- C8: for a field that is not ignored, with no uuid or bool option and a
non-empty value after transformation and default substitution, `setParamValue`
sets a boolean to the parsed boolean, a string to the value itself, and a
platform integer to the parsed base-10 signed 64-bit integer; a value that does
not parse for a boolean or an integer is a 400-class error and the field is
left as it was.  The parsed boolean is true for 1, t, T, TRUE, true, True and
false for 0, f, F, FALSE, false, False; the parsed integer is the number that
decimal digits write, after an optional sign, when it is from -2^63 to 2^63-1;
any other value does not parse. -/
theorem setParamValue_coerces (param : Value) (name : String) (tags : StructTag)
    (source : Values) (hign : (NewParamOptions tags).Ignore = false)
    (hu : (NewParamOptions tags).ValidateUUID = false)
    (hb : (NewParamOptions tags).ValidateOptionalBool = false)
    (hv : fieldValue name tags source ≠ "") :
    (∀ b0, param = Value.bool b0 →
      (∀ b, ParseBool (fieldValue name tags source) = some b →
        setParamValue param name tags source = (Value.bool b, none))
      ∧ (ParseBool (fieldValue name tags source) = none →
        ∃ e, setParamValue param name tags source = (param, some e) ∧ e.code = 400))
    ∧ (∀ s0, param = Value.string s0 →
      setParamValue param name tags source =
        (Value.string (fieldValue name tags source), none))
    ∧ (∀ i0, param = Value.int i0 →
      (∀ i, ParseInt (fieldValue name tags source) = some i →
        setParamValue param name tags source = (Value.int i, none)
          ∧ -(2 : Int) ^ 63 ≤ i ∧ i < (2 : Int) ^ 63)
      ∧ (ParseInt (fieldValue name tags source) = none →
        ∃ e, setParamValue param name tags source = (param, some e) ∧ e.code = 400))
    ∧ (∀ b0, param = Value.bool b0 →
      (fieldValue name tags source ∈ ["1", "t", "T", "TRUE", "true", "True"] →
        setParamValue param name tags source = (Value.bool true, none))
      ∧ (fieldValue name tags source ∈ ["0", "f", "F", "FALSE", "false", "False"] →
        setParamValue param name tags source = (Value.bool false, none))
      ∧ (fieldValue name tags source ∉ ["1", "t", "T", "TRUE", "true", "True"] →
        fieldValue name tags source ∉ ["0", "f", "F", "FALSE", "false", "False"] →
        setParamValue param name tags source =
          (param, some ⟨400, "value [" ++ fieldValue name tags source ++
            "] for parameter [" ++ (fieldOptions name tags).Name ++ "] is invalid"⟩)))
    ∧ (∀ i0, param = Value.int i0 →
      (∀ digits : List Char, digits ≠ [] →
        (∀ c ∈ digits, c ∈ ['0', '1', '2', '3', '4', '5', '6', '7', '8', '9']) →
        ((fieldValue name tags source = String.mk digits
            ∨ fieldValue name tags source = String.mk ('+' :: digits)) →
          (decimalValue digits < 2 ^ 63 →
            setParamValue param name tags source =
              (Value.int (decimalValue digits : Int), none))
          ∧ (2 ^ 63 ≤ decimalValue digits →
            setParamValue param name tags source =
              (param, some ⟨400, "value [" ++ fieldValue name tags source ++
                "] for parameter [" ++ (fieldOptions name tags).Name ++ "] is invalid"⟩)))
        ∧ (fieldValue name tags source = String.mk ('-' :: digits) →
          (decimalValue digits ≤ 2 ^ 63 →
            setParamValue param name tags source =
              (Value.int (-(decimalValue digits : Int)), none))
          ∧ (2 ^ 63 < decimalValue digits →
            setParamValue param name tags source =
              (param, some ⟨400, "value [" ++ fieldValue name tags source ++
                "] for parameter [" ++ (fieldOptions name tags).Name ++ "] is invalid"⟩))))
      ∧ ((∀ digits : List Char, digits ≠ [] →
          (∀ c ∈ digits, c ∈ ['0', '1', '2', '3', '4', '5', '6', '7', '8', '9']) →
          fieldValue name tags source ≠ String.mk digits
            ∧ fieldValue name tags source ≠ String.mk ('+' :: digits)
            ∧ fieldValue name tags source ≠ String.mk ('-' :: digits)) →
        setParamValue param name tags source =
          (param, some ⟨400, "value [" ++ fieldValue name tags source ++
            "] for parameter [" ++ (fieldOptions name tags).Name ++ "] is invalid"⟩))) := by
  have hval : (fieldOptions name tags).Validate (fieldValue name tags source) = none :=
    Validate_plain _ _ hv (by rw [(fieldOptions_flags name tags).2.2.1, hu])
      (by rw [(fieldOptions_flags name tags).2.2.2, hb])
  have heq := setParamValue_eq param name tags source hign
  rw [hval] at heq
  dsimp only at heq
  rw [if_pos hv] at heq
  have hbool : ∀ b0, param = Value.bool b0 →
      setParamValue param name tags source =
        match ParseBool (fieldValue name tags source) with
        | none => (param, some (ApiError.NewBadRequest
            ("value [" ++ fieldValue name tags source ++ "] for parameter [" ++
              (fieldOptions name tags).Name ++ "] is invalid")))
        | some v => (Value.bool v, none) := by
    rintro b0 rfl
    rw [heq]
  have hint : ∀ i0, param = Value.int i0 →
      setParamValue param name tags source =
        match ParseInt (fieldValue name tags source) with
        | none => (param, some (ApiError.NewBadRequest
            ("value [" ++ fieldValue name tags source ++ "] for parameter [" ++
              (fieldOptions name tags).Name ++ "] is invalid")))
        | some v => (Value.int v, none) := by
    rintro i0 rfl
    rw [heq]
  refine ⟨?_, ?_, ?_, ?_, ?_⟩
  · intro b0 hp
    refine ⟨fun b hpb => ?_, fun hpb => ?_⟩
    · rw [hbool b0 hp, hpb]
    · rw [hbool b0 hp, hpb]
      exact ⟨_, rfl, rfl⟩
  · rintro s0 rfl
    rw [heq]
  · intro i0 hp
    refine ⟨fun i hpi => ⟨?_, ParseInt_range _ i hpi⟩, fun hpi => ?_⟩
    · rw [hint i0 hp, hpi]
    · rw [hint i0 hp, hpi]
      exact ⟨_, rfl, rfl⟩
  · intro b0 hp
    refine ⟨fun ht => ?_, fun hf => ?_, fun h1 h2 => ?_⟩
    · rw [hbool b0 hp, ParseBool_of_true _ ht]
    · rw [hbool b0 hp, ParseBool_of_false _ hf]
    · rw [hbool b0 hp, ParseBool_of_other _ h1 h2]
      rfl
  · intro i0 hp
    refine ⟨fun digits hne hall => ⟨fun hform => ⟨fun hlt => ?_, fun hge => ?_⟩,
      fun hform => ⟨fun hle => ?_, fun hgt => ?_⟩⟩, fun hother => ?_⟩
    · have hparse : ParseInt (fieldValue name tags source) =
          some (decimalValue digits : Int) := by
        rcases hform with hform | hform
        · rw [hform, (ParseInt_digits digits hne hall).1, if_pos hlt]
        · rw [hform, (ParseInt_digits digits hne hall).2.1, if_pos hlt]
      rw [hint i0 hp, hparse]
    · have hparse : ParseInt (fieldValue name tags source) = none := by
        rcases hform with hform | hform
        · rw [hform, (ParseInt_digits digits hne hall).1, if_neg (by omega)]
        · rw [hform, (ParseInt_digits digits hne hall).2.1, if_neg (by omega)]
      rw [hint i0 hp, hparse]
      rfl
    · have hparse : ParseInt (fieldValue name tags source) =
          some (-(decimalValue digits : Int)) := by
        rw [hform, (ParseInt_digits digits hne hall).2.2, if_pos hle]
      rw [hint i0 hp, hparse]
    · have hparse : ParseInt (fieldValue name tags source) = none := by
        rw [hform, (ParseInt_digits digits hne hall).2.2, if_neg (by omega)]
      rw [hint i0 hp, hparse]
      rfl
    · rw [hint i0 hp, ParseInt_of_other _ hother]
      rfl

/-- C8, on a boolean field `in_trash` supplied as `T`, as `0` and as `yes`, on a
string field `name`, and on an integer field `page` supplied as `-12`, as `12a`,
as the largest and the smallest 64-bit integers, and as the numbers beyond. -/
theorem setParamValue_coerces_witness :
    setParamValue (Value.bool false) "InTrash" [("json", "in_trash")] [("in_trash", ["T"])] =
      (Value.bool true, none)
    ∧ setParamValue (Value.bool true) "InTrash" [("json", "in_trash")]
        [("in_trash", ["0"])] = (Value.bool false, none)
    ∧ setParamValue (Value.bool true) "InTrash" [("json", "in_trash")]
        [("in_trash", ["yes"])] =
      (Value.bool true, some ⟨400, "value [yes] for parameter [in_trash] is invalid"⟩)
    ∧ setParamValue (Value.string "") "Name" [("json", "name")] [("name", ["Google"])] =
      (Value.string "Google", none)
    ∧ setParamValue (Value.int 0) "Page" [("json", "page")] [("page", ["-12"])] =
      (Value.int (-12), none)
    ∧ (∃ e, setParamValue (Value.int 0) "Page" [("json", "page")] [("page", ["12a"])] =
      (Value.int 0, some e) ∧ e.code = 400)
    ∧ setParamValue (Value.int 0) "Page" [("json", "page")]
        [("page", ["9223372036854775807"])] = (Value.int 9223372036854775807, none)
    ∧ setParamValue (Value.int 0) "Page" [("json", "page")]
        [("page", ["-9223372036854775808"])] = (Value.int (-9223372036854775808), none)
    ∧ setParamValue (Value.int 0) "Page" [("json", "page")]
        [("page", ["9223372036854775808"])] =
      (Value.int 0,
        some ⟨400, "value [9223372036854775808] for parameter [page] is invalid"⟩)
    ∧ setParamValue (Value.int 0) "Page" [("json", "page")]
        [("page", ["-9223372036854775809"])] =
      (Value.int 0,
        some ⟨400, "value [-9223372036854775809] for parameter [page] is invalid"⟩)
    ∧ setParamValue (Value.int 0) "Page" [("json", "page")] [("page", ["+07"])] =
      (Value.int 7, none) :=
  ⟨((setParamValue_coerces (Value.bool false) "InTrash" [("json", "in_trash")]
      [("in_trash", ["T"])] rfl rfl rfl (by decide)).2.2.2.1 false rfl).1 (by decide),
   ((setParamValue_coerces (Value.bool true) "InTrash" [("json", "in_trash")]
      [("in_trash", ["0"])] rfl rfl rfl (by decide)).2.2.2.1 true rfl).2.1 (by decide),
   ((setParamValue_coerces (Value.bool true) "InTrash" [("json", "in_trash")]
      [("in_trash", ["yes"])] rfl rfl rfl (by decide)).2.2.2.1 true rfl).2.2
      (by decide) (by decide),
   (setParamValue_coerces (Value.string "") "Name" [("json", "name")]
      [("name", ["Google"])] rfl rfl rfl (by decide)).2.1 "" rfl,
   ((((setParamValue_coerces (Value.int 0) "Page" [("json", "page")] [("page", ["-12"])]
      rfl rfl rfl (by decide)).2.2.1 0 rfl).1 (-12) (by decide)).1),
   ((setParamValue_coerces (Value.int 0) "Page" [("json", "page")] [("page", ["12a"])]
      rfl rfl rfl (by decide)).2.2.1 0 rfl).2 (by decide),
   by decide, by decide, by decide, by decide, by decide⟩

/-- The outcome of `setParamValue` on a field that is not ignored depends on
the source through the value only. -/
theorem setParamValue_congr (param : Value) (name : String) (tags : StructTag)
    (source source2 : Values) (hign : (NewParamOptions tags).Ignore = false)
    (h : fieldValue name tags source = fieldValue name tags source2) :
    setParamValue param name tags source = setParamValue param name tags source2 := by
  rw [setParamValue_eq param name tags source hign,
    setParamValue_eq param name tags source2 hign, h]

/-- C9, as amended: for a field that is not ignored and whose extracted value
is empty after transformation, the bind uses the declared default value, as
written in the tag: the outcome of `setParamValue` is the outcome for a request
that supplied the default value itself, provided the transformations of the
field leave the default value unchanged; and on a value that is non-empty after
transformation the outcome is the same whatever the default value is. -/
theorem setParamValue_default (param : Value) (name : String) (tags : StructTag)
    (hign : (NewParamOptions tags).Ignore = false) :
    (∀ source : Values, extractedValue name tags source = "" →
      fieldValue name tags source = tags.Get "default"
      ∧ ∀ supplied : Values,
          supplied.Get (fieldOptions name tags).Name = tags.Get "default" →
          (fieldOptions name tags).ApplyTransformations (tags.Get "default") =
            tags.Get "default" →
          setParamValue param name tags source = setParamValue param name tags supplied)
    ∧ (∀ (source : Values) (tags2 : StructTag), extractedValue name tags source ≠ "" →
        tags2.Get "json" = tags.Get "json" → tags2.Get "params" = tags.Get "params" →
        fieldValue name tags source = extractedValue name tags source
        ∧ setParamValue param name tags2 source = setParamValue param name tags source) := by
  constructor
  · intro source hempty
    have hval : fieldValue name tags source = tags.Get "default" := by
      unfold fieldValue
      rw [if_pos hempty]
    refine ⟨hval, fun supplied hsup hfix => ?_⟩
    have hext : extractedValue name tags supplied = tags.Get "default" := by
      unfold extractedValue
      rw [hsup, hfix]
    have hval2 : fieldValue name tags supplied = tags.Get "default" := by
      unfold fieldValue
      split_ifs with hc
      · rfl
      · exact hext
    exact setParamValue_congr param name tags source supplied hign (hval.trans hval2.symm)
  · intro source tags2 hne hjson hparams
    have hopt : NewParamOptions tags2 = NewParamOptions tags := by
      unfold NewParamOptions
      rw [hjson, hparams]
    have hfo : fieldOptions name tags2 = fieldOptions name tags := by
      unfold fieldOptions
      rw [hopt]
    have hex : extractedValue name tags2 source = extractedValue name tags source := by
      unfold extractedValue
      rw [hfo]
    have hval : fieldValue name tags source = extractedValue name tags source := by
      unfold fieldValue
      rw [if_neg hne]
    have hval2 : fieldValue name tags2 source = extractedValue name tags source := by
      unfold fieldValue
      rw [hex, if_neg hne]
    refine ⟨hval, ?_⟩
    rw [setParamValue_eq param name tags2 source (by rw [hopt]; exact hign),
      setParamValue_eq param name tags source hign, hfo, hval, hval2]

/-- C9, on an integer field `page` of default 1: absent, it is bound as when
`1` is supplied; supplied as `3`, it is bound the same with the default 9. -/
theorem setParamValue_default_witness :
    setParamValue (Value.int 0) "Page" [("json", "page"), ("default", "1")] [] =
      setParamValue (Value.int 0) "Page" [("json", "page"), ("default", "1")]
        [("page", ["1"])]
    ∧ setParamValue (Value.int 0) "Page" [("json", "page"), ("default", "9")]
        [("page", ["3"])] =
      setParamValue (Value.int 0) "Page" [("json", "page"), ("default", "1")]
        [("page", ["3"])] :=
  ⟨((setParamValue_default (Value.int 0) "Page" [("json", "page"), ("default", "1")]
      rfl).1 [] (by decide)).2 [("page", ["1"])] (by decide) (by decide),
   ((setParamValue_default (Value.int 0) "Page" [("json", "page"), ("default", "1")]
      rfl).2 [("page", ["3"])] [("json", "page"), ("default", "9")] (by decide)
      (by decide) (by decide)).2⟩

/-- C9 as stated fails: on a trimmed string field of default ` x`, a request
without the field binds ` x`, the default as written, and a request that
supplies ` x` binds `x`. -/
theorem setParamValue_default_not_transformed :
    setParamValue (Value.string "") "Name"
        [("json", "name"), ("params", "trim"), ("default", " x")] [] =
      (Value.string " x", none)
    ∧ setParamValue (Value.string "") "Name"
        [("json", "name"), ("params", "trim"), ("default", " x")] [("name", [" x"])] =
      (Value.string "x", none) := by
  decide

/-- C10 fails on the code: a pointer field that is nil before the bind makes
`ParseParams` fail with a 500-class error, when its source holds no value for
it and when a value is supplied; the field stays nil. -/
theorem ParseParams_nil_pointer_fails :
    ParseParams
      ⟨⟨true, [⟨"ID", [("json", "id"), ("params", "required,uuid")], true,
                  Slot.direct (Value.string "")⟩,
               ⟨"Name", [("json", "name"), ("params", "trim"), ("from", "form")], true,
                  Slot.pointer none⟩]⟩,
       Except.ok [("url", [("id", ["aa44ca86-553e-4e16-8c30-2e50e63f7eaa"])]),
                  ("form", [])]⟩ =
      (⟨true, [⟨"ID", [("json", "id"), ("params", "required,uuid")], true,
                  Slot.direct (Value.string "aa44ca86-553e-4e16-8c30-2e50e63f7eaa")⟩,
               ⟨"Name", [("json", "name"), ("params", "trim"), ("from", "form")], true,
                  Slot.pointer none⟩]⟩,
       some ⟨500, "field [Name] could not be set"⟩)
    ∧ ParseParams
      ⟨⟨true, [⟨"ID", [("json", "id"), ("params", "required,uuid")], true,
                  Slot.direct (Value.string "")⟩,
               ⟨"Name", [("json", "name"), ("params", "trim"), ("from", "form")], true,
                  Slot.pointer none⟩]⟩,
       Except.ok [("url", [("id", ["aa44ca86-553e-4e16-8c30-2e50e63f7eaa"])]),
                  ("form", [("name", ["valid name"])])]⟩ =
      (⟨true, [⟨"ID", [("json", "id"), ("params", "required,uuid")], true,
                  Slot.direct (Value.string "aa44ca86-553e-4e16-8c30-2e50e63f7eaa")⟩,
               ⟨"Name", [("json", "name"), ("params", "trim"), ("from", "form")], true,
                  Slot.pointer none⟩]⟩,
       some ⟨500, "field [Name] could not be set"⟩) := by
  decide

/-- The loop goes on after fields without error: the fields of the whole are
those of both parts. -/
theorem parseFields_append (byPointer : Bool) (sources : Sources)
    (pre rest : List Field) (h : (parseFields byPointer sources pre).2 = none) :
    parseFields byPointer sources (pre ++ rest) =
      ((parseFields byPointer sources pre).1 ++ (parseFields byPointer sources rest).1,
        (parseFields byPointer sources rest).2) := by
  induction pre with
  | nil => rfl
  | cons g pre ih =>
    rw [List.cons_append, parseFields_cons]
    rw [parseFields_cons] at h ⊢
    cases hg : parseField byPointer sources g with
    | mk g1 err =>
      rw [hg] at h
      cases err with
      | some e1 => cases h
      | none =>
        dsimp only at h ⊢
        rw [ih h]
        rfl

/-- The loop keeps the number of fields. -/
theorem parseFields_length (byPointer : Bool) (sources : Sources) (fields : List Field) :
    (parseFields byPointer sources fields).1.length = fields.length := by
  induction fields with
  | nil => rfl
  | cons g rest ih =>
    rw [parseFields_cons]
    cases hg : parseField byPointer sources g with
    | mk g1 err =>
      cases err with
      | some e1 => rfl
      | none =>
        dsimp only
        rw [List.length_cons, List.length_cons, ih]

/-- C11: `ParseParams` handles the fields in declaration order and stops at the
first field that fails: when the fields before `f` bind without error and `f`
fails with `e`, the error returned is `e`, the fields declared after `f` are as
they were before the call, and the fields declared before `f` hold what any
fully successful bind of the same sources gives them. -/
theorem ParseParams_stops_at_first_failure (params : Params) (sources : Sources)
    (pre post : List Field) (f f1 : Field) (e : ApiError)
    (hfields : params.fields = pre ++ f :: post)
    (hpre : (parseFields params.byPointer sources pre).2 = none)
    (hf : parseField params.byPointer sources f = (f1, some e)) :
    ParseParams ⟨params, Except.ok sources⟩ =
        ({ params with
            fields := (parseFields params.byPointer sources pre).1 ++ f1 :: post }, some e)
    ∧ (parseFields params.byPointer sources pre).1.length = pre.length
    ∧ ∀ post2 : List Field,
        (parseFields params.byPointer sources (pre ++ post2)).2 = none →
        (parseFields params.byPointer sources (pre ++ post2)).1.take pre.length =
          (parseFields params.byPointer sources pre).1 := by
  refine ⟨?_, parseFields_length _ _ pre, fun post2 _ => ?_⟩
  · unfold ParseParams
    dsimp only
    rw [hfields, parseFields_append _ _ pre (f :: post) hpre, parseFields_cons, hf]
  · rw [parseFields_append _ _ pre post2 hpre]
    dsimp only
    rw [← parseFields_length params.byPointer sources pre, List.take_left]

/-- C11, on three fields of which the second, an integer, is given `abc`: the
first is bound, the error is the one of the second, the third is as it was. -/
theorem ParseParams_stops_at_first_failure_witness :
    ParseParams
      ⟨⟨true, [⟨"ID", [("json", "id"), ("params", "required")], true,
                  Slot.direct (Value.string "")⟩,
               ⟨"Page", [("json", "page"), ("from", "query")], true,
                  Slot.direct (Value.int 0)⟩,
               ⟨"Name", [("json", "name"), ("from", "query")], true,
                  Slot.direct (Value.string "before")⟩]⟩,
       Except.ok [("url", [("id", ["7"])]),
                  ("query", [("page", ["abc"]), ("name", ["after"])])]⟩ =
      (⟨true, [⟨"ID", [("json", "id"), ("params", "required")], true,
                  Slot.direct (Value.string "7")⟩,
               ⟨"Page", [("json", "page"), ("from", "query")], true,
                  Slot.direct (Value.int 0)⟩,
               ⟨"Name", [("json", "name"), ("from", "query")], true,
                  Slot.direct (Value.string "before")⟩]⟩,
       some ⟨400, "value [abc] for parameter [page] is invalid"⟩) :=
  (ParseParams_stops_at_first_failure
    ⟨true, [⟨"ID", [("json", "id"), ("params", "required")], true,
                Slot.direct (Value.string "")⟩,
             ⟨"Page", [("json", "page"), ("from", "query")], true,
                Slot.direct (Value.int 0)⟩,
             ⟨"Name", [("json", "name"), ("from", "query")], true,
                Slot.direct (Value.string "before")⟩]⟩
    [("url", [("id", ["7"])]), ("query", [("page", ["abc"]), ("name", ["after"])])]
    [⟨"ID", [("json", "id"), ("params", "required")], true, Slot.direct (Value.string "")⟩]
    [⟨"Name", [("json", "name"), ("from", "query")], true,
        Slot.direct (Value.string "before")⟩]
    ⟨"Page", [("json", "page"), ("from", "query")], true, Slot.direct (Value.int 0)⟩
    ⟨"Page", [("json", "page"), ("from", "query")], true, Slot.direct (Value.int 0)⟩
    ⟨400, "value [abc] for parameter [page] is invalid"⟩
    rfl (by decide) (by decide)).1

/-- The loop of `NewParamOptions` keeps the name and the ignore mark, and sets
a flag when it was set or its token is among the tokens. -/
theorem foldl_applyOption (opts : List String) (output : ParamOptions) :
    (opts.foldl applyOption output).Ignore = output.Ignore
    ∧ (opts.foldl applyOption output).Name = output.Name
    ∧ ((opts.foldl applyOption output).Required = true ↔
        output.Required = true ∨ "required" ∈ opts)
    ∧ ((opts.foldl applyOption output).Trim = true ↔ output.Trim = true ∨ "trim" ∈ opts)
    ∧ ((opts.foldl applyOption output).ValidateUUID = true ↔
        output.ValidateUUID = true ∨ "uuid" ∈ opts)
    ∧ ((opts.foldl applyOption output).ValidateOptionalBool = true ↔
        output.ValidateOptionalBool = true ∨ "bool" ∈ opts) := by
  induction opts generalizing output with
  | nil => simp
  | cons opt rest ih =>
    rw [List.foldl_cons]
    obtain ⟨h1, h2, h3, h4, h5, h6⟩ := ih (applyOption output opt)
    rw [h1, h2, h3, h4, h5, h6]
    unfold applyOption
    by_cases c1 : opt = "required"
    · subst c1; simp
    · by_cases c2 : opt = "trim"
      · subst c2; simp
      · by_cases c3 : opt = "uuid"
        · subst c3; simp
        · by_cases c4 : opt = "bool"
          · subst c4; simp
          · have d1 : ¬ "required" = opt := fun h => c1 h.symm
            have d2 : ¬ "trim" = opt := fun h => c2 h.symm
            have d3 : ¬ "uuid" = opt := fun h => c3 h.symm
            have d4 : ¬ "bool" = opt := fun h => c4 h.symm
            simp [c1, c2, c3, c4, d1, d2, d3, d4]

/-- The options of a tag whose naming token is not `-`: those that the loop
over the options gives, from the name alone. -/
theorem NewParamOptions_eq (tags : StructTag) (h : namingToken tags ≠ "-") :
    NewParamOptions tags =
      (optionTokens tags).foldl applyOption { Name := namingToken tags } := by
  unfold NewParamOptions namingToken optionTokens at *
  cases hs : Split (tags.Get "json") with
  | nil => rfl
  | cons first rest =>
    rw [hs] at h
    have hne : ¬ first = "-" := h
    dsimp only
    rw [if_neg hne]
    rfl

/-- Two records of options with the same fields are the same. -/
theorem ParamOptions.eq_of_fields (a b : ParamOptions) (h1 : a.Ignore = b.Ignore)
    (h2 : a.Name = b.Name) (h3 : a.Required = b.Required) (h4 : a.Trim = b.Trim)
    (h5 : a.ValidateUUID = b.ValidateUUID)
    (h6 : a.ValidateOptionalBool = b.ValidateOptionalBool) : a = b := by
  cases a
  cases b
  simp only [ParamOptions.mk.injEq]
  exact ⟨h1, h2, h3, h4, h5, h6⟩

/-- C18: for a tag whose json naming token is not `-`, `NewParamOptions` sets
each of `Required`, `Trim`, `ValidateUUID` and `ValidateOptionalBool` exactly
when its token is one of the comma-separated tokens of the params tag.  Two
tags with the same json tag in which the same of the four tokens occur, in
whatever order, however often and among whatever other tokens, give the same
options; and every subset of the four options is given by some tag. -/
theorem NewParamOptions_flags (tags : StructTag) (h : namingToken tags ≠ "-") :
    (NewParamOptions tags).Ignore = false
    ∧ (NewParamOptions tags).Name = namingToken tags
    ∧ ((NewParamOptions tags).Required = true ↔ "required" ∈ optionTokens tags)
    ∧ ((NewParamOptions tags).Trim = true ↔ "trim" ∈ optionTokens tags)
    ∧ ((NewParamOptions tags).ValidateUUID = true ↔ "uuid" ∈ optionTokens tags)
    ∧ ((NewParamOptions tags).ValidateOptionalBool = true ↔ "bool" ∈ optionTokens tags)
    ∧ (∀ tags2 : StructTag, tags2.Get "json" = tags.Get "json" →
        (∀ t ∈ ["required", "trim", "uuid", "bool"],
          t ∈ optionTokens tags2 ↔ t ∈ optionTokens tags) →
        NewParamOptions tags2 = NewParamOptions tags)
    ∧ (∀ required trim uuid bool : Bool,
        NewParamOptions [("params", optionsText required trim uuid bool)] =
          { Required := required, Trim := trim, ValidateUUID := uuid,
            ValidateOptionalBool := bool }) := by
  have key : ∀ t : StructTag, namingToken t ≠ "-" →
      (NewParamOptions t).Ignore = false
      ∧ (NewParamOptions t).Name = namingToken t
      ∧ ((NewParamOptions t).Required = true ↔ "required" ∈ optionTokens t)
      ∧ ((NewParamOptions t).Trim = true ↔ "trim" ∈ optionTokens t)
      ∧ ((NewParamOptions t).ValidateUUID = true ↔ "uuid" ∈ optionTokens t)
      ∧ ((NewParamOptions t).ValidateOptionalBool = true ↔ "bool" ∈ optionTokens t) := by
    intro t ht
    rw [NewParamOptions_eq t ht]
    obtain ⟨h1, h2, h3, h4, h5, h6⟩ :=
      foldl_applyOption (optionTokens t) { Name := namingToken t }
    refine ⟨h1, h2, ?_, ?_, ?_, ?_⟩
    · rw [h3]; simp
    · rw [h4]; simp
    · rw [h5]; simp
    · rw [h6]; simp
  obtain ⟨k1, k2, k3, k4, k5, k6⟩ := key tags h
  refine ⟨k1, k2, k3, k4, k5, k6, ?_, ?_⟩
  · intro tags2 hjson hsame
    have hname : namingToken tags2 = namingToken tags := by
      unfold namingToken
      rw [hjson]
    obtain ⟨m1, m2, m3, m4, m5, m6⟩ := key tags2 (by rw [hname]; exact h)
    apply ParamOptions.eq_of_fields
    · rw [m1, k1]
    · rw [m2, k2, hname]
    · exact Bool.eq_iff_iff.mpr
        ((m3.trans (hsame "required" (by simp))).trans k3.symm)
    · exact Bool.eq_iff_iff.mpr ((m4.trans (hsame "trim" (by simp))).trans k4.symm)
    · exact Bool.eq_iff_iff.mpr ((m5.trans (hsame "uuid" (by simp))).trans k5.symm)
    · exact Bool.eq_iff_iff.mpr ((m6.trans (hsame "bool" (by simp))).trans k6.symm)
  · decide

/-- C18, on the tag of a required uuid field `id` whose params tag repeats a
token and has an unknown one: the options are those of `required,uuid`. -/
theorem NewParamOptions_flags_witness :
    NewParamOptions [("json", "id"), ("params", "uuid,required,uuid,other")] =
      NewParamOptions [("json", "id"), ("params", "required,uuid")]
    ∧ NewParamOptions [("json", "id"), ("params", "required,uuid")] =
      { Name := "id", Required := true, ValidateUUID := true } :=
  ⟨(NewParamOptions_flags [("json", "id"), ("params", "required,uuid")] (by decide)).2.2.2.2.2.2.1
      [("json", "id"), ("params", "uuid,required,uuid,other")] rfl (by decide),
   by decide⟩

/-- Setting a field to the value it has leaves it as it is. -/
theorem Field.set_param (f : Field) (v : Value) (h : f.param = some v) : f.set v = f := by
  cases f with
  | mk name tag exported slot =>
    cases slot with
    | direct w =>
      have hw : w = v := Option.some.inj h
      subst hw
      rfl
    | pointer target =>
      have ht : target = some v := h
      subst ht
      rfl

/-- C19: for a field that can be set, is not ignored, and whose kind is none of
boolean, string and platform integer, a value that passes validation is
discarded: the turn of the loop of `ParseParams` for that field reports no
error and leaves the field as it was. -/
theorem parseField_other_kind_discards (byPointer : Bool) (sources : Sources) (f : Field)
    (source : Values) (kind content : String)
    (hset : f.CanSet byPointer = true)
    (hsrc : sources.lookup (paramLocation f.Tag) = some source)
    (hkind : f.param = some (Value.other kind content))
    (hign : (NewParamOptions f.Tag).Ignore = false)
    (hvalid : (fieldOptions f.Name f.Tag).Validate (fieldValue f.Name f.Tag source) = none) :
    parseField byPointer sources f = (f, none)
    ∧ setParamValue (Value.other kind content) f.Name f.Tag source =
        (Value.other kind content, none) := by
  have hs : setParamValue (Value.other kind content) f.Name f.Tag source =
      (Value.other kind content, none) := by
    rw [setParamValue_eq _ _ _ _ hign, hvalid]
    dsimp only
    split_ifs <;> rfl
  refine ⟨?_, hs⟩
  rw [parseField_eq byPointer sources f source _ hset hsrc hkind, hs]
  dsimp only
  rw [Field.set_param f _ hkind]

/-- C19, on a float field `ratio` supplied as `0.5`: the bind succeeds and the
field keeps its value. -/
theorem parseField_other_kind_discards_witness :
    parseField true [("url", [("ratio", ["0.5"])])]
        ⟨"Ratio", [("json", "ratio")], true, Slot.direct (Value.other "float64" "0")⟩ =
      (⟨"Ratio", [("json", "ratio")], true, Slot.direct (Value.other "float64" "0")⟩, none) :=
  (parseField_other_kind_discards true [("url", [("ratio", ["0.5"])])]
    ⟨"Ratio", [("json", "ratio")], true, Slot.direct (Value.other "float64" "0")⟩
    [("ratio", ["0.5"])] "float64" "0" rfl rfl rfl rfl (by decide)).1

end SrcRouter

/-! ## Further properties of the response emitter -/

namespace ApiRouter

/-- C12, as amended: on a non-nil request, `Request.Error` answers an ApiError
whose status `s` is not 500 and whose message is `m` with the status `s` and the
body `{"error":"m"}` and a line feed, the message as it is between the quotes. -/
theorem Error_client_error_verbatim (debug : Bool) (req : Request) (log : List String)
    (err : ApiError) (h : err.code ≠ 500) :
    (Error debug ⟨some req, log⟩ (GoError.api err)).req =
      some { req with Response := req.Response ++
        [ResponseEvent.WriteHeader err.code,
         ResponseEvent.Write ("\x7b\"error\":\"" ++ err.message ++ "\"\x7d" ++ "\n")] } := by
  simp [Error, StatusInternalServerError, httpError, h]

/-- C12, on a missing parameter: status 400 and the message in the body. -/
theorem Error_client_error_verbatim_witness :
    (Error false ⟨some ⟨[], "POST /users"⟩, []⟩
        (GoError.api ⟨400, "parameter missing: id"⟩)).req =
      some ⟨[ResponseEvent.WriteHeader 400,
             ResponseEvent.Write "\x7b\"error\":\"parameter missing: id\"\x7d\n"],
            "POST /users"⟩ :=
  Error_client_error_verbatim false ⟨[], "POST /users"⟩ [] ⟨400, "parameter missing: id"⟩
    (by decide)

/-- C12 as stated fails: the body that `Request.Error` writes for the 400 error
`parameter missing: id` is not `{"error":"parameter missing: id"}`: a line feed
follows. -/
theorem Error_client_error_body_has_line_feed :
    errorBody false (GoError.api ⟨400, "parameter missing: id"⟩) =
        some "\x7b\"error\":\"parameter missing: id\"\x7d\n"
    ∧ errorBody false (GoError.api ⟨400, "parameter missing: id"⟩) ≠
        some "\x7b\"error\":\"parameter missing: id\"\x7d" := by
  decide

/-- The closing quote ends a JSON string. -/
theorem decodeString_quote (rest : List Char) :
    decodeString ('"' :: rest) = some ([], rest) := by
  rw [decodeString.eq_def]
  simp

/-- A character that is no quote, no backslash and no control character is a
piece of a JSON string as it is. -/
theorem decodeString_char (c : Char) (rest : List Char) (h1 : c ≠ '"') (h2 : c ≠ '\\')
    (h3 : ¬ c.toNat < 32) :
    decodeString (c :: rest) =
      match decodeString rest with
      | some (ps, r) => some (Piece.char c :: ps, r)
      | none => none := by
  rw [decodeString.eq_def]
  simp [h1, h2, h3]

/-- Characters without quote, backslash and control character, then a quote, are
a JSON string of these characters. -/
theorem decodeString_plain (cs rest : List Char)
    (h : ∀ c ∈ cs, c ≠ '"' ∧ c ≠ '\\' ∧ ¬ c.toNat < 32) :
    decodeString (cs ++ '"' :: rest) = some (cs.map Piece.char, rest) := by
  induction cs with
  | nil => exact decodeString_quote rest
  | cons c cs ih =>
    obtain ⟨h1, h2, h3⟩ := h c (List.mem_cons_self c cs)
    rw [List.cons_append, decodeString_char c _ h1 h2 h3,
      ih (fun x hx => h x (List.mem_cons_of_mem c hx))]
    rfl

/-- Pieces that are characters write these characters. -/
theorem assemble_chars (cs : List Char) : assemble none (cs.map Piece.char) = cs := by
  induction cs with
  | nil => rfl
  | cons c cs ih => simp [assemble, ih]

/-- A text that starts with no white space has none to skip. -/
theorem skipSpace_cons (c : Char) (cs : List Char) (h : isJSONSpace c = false) :
    skipSpace (c :: cs) = c :: cs := by
  simp [skipSpace, List.dropWhile, h]

/-- A message without quote, backslash and control character, put between the
quotes, gives a JSON object that decodes to the message. -/
theorem decodeErrorObject_plain (m : String)
    (h : ∀ c ∈ m.data, c ≠ '"' ∧ c ≠ '\\' ∧ ¬ c.toNat < 32) :
    decodeErrorObject ("\x7b\"error\":\"" ++ m ++ "\"\x7d" ++ "\n") = some m := by
  have hdata : ("\x7b\"error\":\"" ++ m ++ "\"\x7d" ++ "\n").data =
      '\x7b' :: '"' ::
        ("error".data ++ '"' :: ':' :: '"' :: (m.data ++ '"' :: ['\x7d', '\n'])) := by
    simp [String.data_append]
  unfold decodeErrorObject
  rw [hdata, skipSpace_cons _ _ (by decide)]
  dsimp only
  rw [if_pos rfl, skipSpace_cons _ _ (by decide)]
  unfold decodeJSONString
  dsimp only
  rw [if_pos rfl, decodeString_plain "error".data _ (by decide)]
  dsimp only
  rw [assemble_chars, if_pos rfl, skipSpace_cons _ _ (by decide)]
  dsimp only
  rw [if_pos rfl, skipSpace_cons _ _ (by decide)]
  dsimp only
  rw [if_pos rfl, decodeString_plain m.data _ h]
  dsimp only
  rw [assemble_chars, skipSpace_cons _ _ (by decide)]
  dsimp only
  rw [if_pos ⟨rfl, rfl⟩]

/-- The body that `Request.Error` gives for an error that is not of status 500 is
a JSON object that decodes to the message, when the message has no quote, no
backslash and no control character. -/
theorem Error_body_JSON_of_plain_message (debug : Bool) (err : ApiError)
    (hcode : err.code ≠ 500)
    (h : ∀ c ∈ err.message.data, c ≠ '"' ∧ c ≠ '\\' ∧ ¬ c.toNat < 32) :
    (errorBody debug (GoError.api err)).bind decodeErrorObject = some err.message := by
  have hbody : errorBody debug (GoError.api err) =
      some ("\x7b\"error\":\"" ++ err.message ++ "\"\x7d" ++ "\n") := by
    simp [errorBody, Error, StatusInternalServerError, httpError, hcode, bodyOf]
  rw [hbody]
  exact decodeErrorObject_plain err.message h

/-- C13 fails on the code: the message is put between the quotes as it is.  The
error of `Validate` for the value `x"y` of a uuid field gives a body that is no
JSON document; a message with a line break too; a message with the backslash of
`C:\temp` gives a body that decodes to another string, with a tab; the body of
a 500-class error is the JSON object of the generic message. -/
theorem Error_body_not_always_JSON :
    SrcRouter.ParamOptions.Validate { Name := "id", ValidateUUID := true } "x\"y" =
        some ⟨400, "not a valid uuid: id - x\"y"⟩
    ∧ errorBody false (GoError.api ⟨400, "not a valid uuid: id - x\"y"⟩) =
        some "\x7b\"error\":\"not a valid uuid: id - x\"y\"\x7d\n"
    ∧ (errorBody false (GoError.api ⟨400, "not a valid uuid: id - x\"y"⟩)).bind
        decodeErrorObject = none
    ∧ (errorBody false (GoError.api ⟨400, "not a valid uuid: id - x\ny"⟩)).bind
        decodeErrorObject = none
    ∧ (errorBody false (GoError.api ⟨400, "not a valid uuid: id - C:\\temp"⟩)).bind
        decodeErrorObject = some "not a valid uuid: id - C:\temp"
    ∧ (errorBody false (GoError.api ⟨500, "pq: connection refused"⟩)).bind
        decodeErrorObject = some "Something went wrong" := by
  decide

/-- C14: on a non-nil request, `Request.Error` handles an error that is not an
ApiError as the ServerError of its message: the error logged carries the
message as it is, and the response is status 500 and the generic body, ended
by the line feed of `http.Error`, the same whatever the message. -/
theorem Error_other_error_is_server_error (debug : Bool) (req : Request) (log : List String)
    (msg : String) :
    Error debug ⟨some req, log⟩ (GoError.other msg) =
        Error debug ⟨some req, log⟩ (GoError.api (ApiError.NewServerError msg))
    ∧ (ApiError.NewServerError msg).code = 500
    ∧ (ApiError.NewServerError msg).message = msg
    ∧ Error debug ⟨some req, log⟩ (GoError.other msg) =
        ⟨some { req with Response := req.Response ++
            [ResponseEvent.WriteHeader 500,
             ResponseEvent.Write "\x7b\"error\":\"Something went wrong\"\x7d\n"] },
          log ++ [msg ++ " - " ++ req.repr]⟩
    ∧ ∀ msg2 : String,
        (Error debug ⟨some req, log⟩ (GoError.other msg2)).req =
          (Error debug ⟨some req, log⟩ (GoError.other msg)).req := by
  refine ⟨rfl, rfl, rfl, ?_, fun msg2 => ?_⟩
  · simp [Error, StatusInternalServerError, httpError, logErrorf, ApiError.NewServerError]
  · simp [Error, StatusInternalServerError, httpError, ApiError.NewServerError]

/-- C15, as amended: on a non-nil request, for a status code from 100 to 999,
`RenderJSON` writes the status and then, for a payload that the JSON encoder can
encode, the JSON encoding of the payload, which the encoder ends with a line
feed; for the nil payload it writes the status only.  `Created` renders with
status 201, `Ok` with status 200, and `NoContent` writes status 204 and no
body. -/
theorem RenderJSON_status_then_encoding (req : Request) (log : List String) (code : Int)
    (json : String) (hlow : 100 ≤ code) (hhigh : code ≤ 999) :
    RenderJSON ⟨some req, log⟩ code (some (Payload.encodes json)) =
        some ⟨some { req with Response := req.Response ++
          [ResponseEvent.WriteHeader code.toNat, ResponseEvent.Write (json ++ "\n")] }, log⟩
    ∧ RenderJSON ⟨some req, log⟩ code none =
        some ⟨some { req with Response := req.Response ++
          [ResponseEvent.WriteHeader code.toNat] }, log⟩
    ∧ (∀ obj : Option Payload,
        Created ⟨some req, log⟩ obj = RenderJSON ⟨some req, log⟩ 201 obj)
    ∧ (∀ obj : Option Payload, Ok ⟨some req, log⟩ obj = RenderJSON ⟨some req, log⟩ 200 obj)
    ∧ NoContent ⟨some req, log⟩ =
        some ⟨some { req with Response := req.Response ++
          [ResponseEvent.WriteHeader 204] }, log⟩ := by
  have hcode : ¬ (code < 100 ∨ 999 < code) := by omega
  refine ⟨?_, ?_, fun obj => rfl, fun obj => rfl, rfl⟩
  · unfold RenderJSON
    dsimp only
    rw [if_neg hcode]
    simp
  · unfold RenderJSON
    dsimp only
    rw [if_neg hcode]

/-- C15, on the creation of a user: `Created` writes the status 201 and then the
encoding of the user. -/
theorem RenderJSON_status_then_encoding_witness :
    Created ⟨some ⟨[], "POST /users"⟩, []⟩
        (some (Payload.encodes "\x7b\"id\":\"1\",\"email\":\"email@fake.com\"\x7d")) =
      some ⟨some ⟨[ResponseEvent.WriteHeader 201,
                   ResponseEvent.Write
                     "\x7b\"id\":\"1\",\"email\":\"email@fake.com\"\x7d\n"],
                  "POST /users"⟩, []⟩ :=
  ((RenderJSON_status_then_encoding ⟨[], "POST /users"⟩ [] 201
      "\x7b\"id\":\"1\",\"email\":\"email@fake.com\"\x7d" (by decide) (by decide)).2.2.1
    (some (Payload.encodes "\x7b\"id\":\"1\",\"email\":\"email@fake.com\"\x7d"))).trans
    (RenderJSON_status_then_encoding ⟨[], "POST /users"⟩ [] 201
      "\x7b\"id\":\"1\",\"email\":\"email@fake.com\"\x7d" (by decide) (by decide)).1

/-- C15 as stated fails: for a payload that has no JSON encoding, `RenderJSON`
writes the status, no body, and then the status 500; and for the status code 0
it does not return, `WriteHeader` refusing the code. -/
theorem RenderJSON_encoding_failure :
    RenderJSON ⟨some ⟨[], "GET /users"⟩, []⟩ 200
        (some (Payload.fails "json: unsupported type: chan int")) =
      some ⟨some ⟨[ResponseEvent.WriteHeader 200, ResponseEvent.WriteHeader 500],
                  "GET /users"⟩,
            ["Could not write JSON response: json: unsupported type: chan int"]⟩
    ∧ RenderJSON ⟨some ⟨[], "GET /users"⟩, []⟩ 0 none = none := by
  decide

/-- C16 fails on the code: on the nil request `Error`, `NoContent`, `Created`
and `Ok` return and write nothing, and `RenderJSON`, which has no nil check,
does not return: it fails on the read of `req.Response`. -/
theorem RenderJSON_nil_request_fails (debug : Bool) (log : List String) (e : GoError)
    (code : Int) (obj : Option Payload) :
    RenderJSON ⟨none, log⟩ code obj = none
    ∧ Error debug ⟨none, log⟩ e = ⟨none, log⟩
    ∧ NoContent ⟨none, log⟩ = some ⟨none, log⟩
    ∧ Created ⟨none, log⟩ obj = some ⟨none, log⟩
    ∧ Ok ⟨none, log⟩ obj = some ⟨none, log⟩ :=
  ⟨rfl, rfl, rfl, rfl, rfl⟩

end ApiRouter

/-! ## Properties of the guard -/

/-- Without identity, a guard above Anonymous answers 401. -/
theorem checkAccess_no_identity (g : Guard) (boundParams : BoundParams)
    (h : g.requiredAccess ≠ Access.Anonymous) :
    g.checkAccess none boundParams = some ApiError.NewUnauthorized := by
  unfold Guard.checkAccess
  cases hr : g.requiredAccess with
  | Anonymous => exact absurd hr h
  | Authenticated => rfl
  | Admin => rfl
  | Owner ownerResolver => rfl

/-- The re-checks all pass when every rule whose field is changed finds the
credential. -/
theorem reauth_all_pass (rules : List ReauthRule) (user : User) (boundParams : BoundParams)
    (h : ∀ rule ∈ rules, boundParams.value rule.triggerField ≠ "" →
      rule.requireCredential user boundParams = true) :
    rules.all (fun rule => rule.check (some user) boundParams) = true := by
  rw [List.all_eq_true]
  intro rule hrule
  unfold ReauthRule.check
  by_cases ht : boundParams.value rule.triggerField = ""
  · rw [if_pos ht]
  · rw [if_neg ht]
    exact h rule hrule ht

/-- The re-checks do not all pass when a rule whose field is changed does not
find the credential. -/
theorem reauth_one_fails (rules : List ReauthRule) (user : User) (boundParams : BoundParams)
    (h : ∃ rule ∈ rules, boundParams.value rule.triggerField ≠ "" ∧
      rule.requireCredential user boundParams = false) :
    ¬ rules.all (fun rule => rule.check (some user) boundParams) = true := by
  obtain ⟨rule, hrule, ht, hcred⟩ := h
  intro hall
  have hcheck := List.all_eq_true.mp hall rule hrule
  unfold ReauthRule.check at hcheck
  rw [if_neg ht] at hcheck
  have hcheck2 : rule.requireCredential user boundParams = true := hcheck
  rw [hcred] at hcheck2
  cases hcheck2

/-- C17, as amended: for a guard that requires a capability above Anonymous,
`Authorize` returns a 401 error when no identity is present and a 403 error when
an identity is present and lacks the required capability (a user who is no
administrator, a user who is not the owner); when the identity has the
capability, it returns no error provided every rule of re-authentication whose
field is changed finds the current credential re-supplied and verified, and a
401 error when one does not. -/
theorem Authorize_contract (g : Guard) (boundParams : BoundParams)
    (h : g.requiredAccess ≠ Access.Anonymous) :
    (∃ e, g.Authorize none boundParams = some e ∧ e.code = 401)
    ∧ ∀ user : User,
        (g.requiredAccess = Access.Admin → user.IsAdmin = false →
          ∃ e, g.Authorize (some user) boundParams = some e ∧ e.code = 403)
        ∧ (∀ ownerResolver, g.requiredAccess = Access.Owner ownerResolver →
            user.ID ≠ ownerResolver boundParams →
            ∃ e, g.Authorize (some user) boundParams = some e ∧ e.code = 403)
        ∧ ((g.requiredAccess = Access.Authenticated
              ∨ (g.requiredAccess = Access.Admin ∧ user.IsAdmin = true)
              ∨ ∃ ownerResolver, g.requiredAccess = Access.Owner ownerResolver
                  ∧ user.ID = ownerResolver boundParams) →
            ((∀ rule ∈ g.fieldReauthRules, boundParams.value rule.triggerField ≠ "" →
                rule.requireCredential user boundParams = true) →
              g.Authorize (some user) boundParams = none)
            ∧ ((∃ rule ∈ g.fieldReauthRules, boundParams.value rule.triggerField ≠ "" ∧
                rule.requireCredential user boundParams = false) →
              ∃ e, g.Authorize (some user) boundParams = some e ∧ e.code = 401)) := by
  refine ⟨?_, fun user => ⟨?_, ?_, ?_⟩⟩
  · refine ⟨ApiError.NewUnauthorized, ?_, rfl⟩
    unfold Guard.Authorize
    rw [checkAccess_no_identity g boundParams h]
  · intro hadmin hno
    refine ⟨ApiError.NewForbidden, ?_, rfl⟩
    have hc : g.checkAccess (some user) boundParams = some ApiError.NewForbidden := by
      unfold Guard.checkAccess
      rw [hadmin]
      simp [hno]
    unfold Guard.Authorize
    rw [hc]
  · intro ownerResolver howner hno
    refine ⟨ApiError.NewForbidden, ?_, rfl⟩
    have hc : g.checkAccess (some user) boundParams = some ApiError.NewForbidden := by
      unfold Guard.checkAccess
      rw [howner]
      simp [hno]
    unfold Guard.Authorize
    rw [hc]
  · intro hcap
    have hc : g.checkAccess (some user) boundParams = none := by
      unfold Guard.checkAccess
      rcases hcap with hauth | ⟨hadmin, hyes⟩ | ⟨ownerResolver, howner, hyes⟩
      · rw [hauth]
      · rw [hadmin]
        simp [hyes]
      · rw [howner]
        simp [hyes]
    refine ⟨fun hrules => ?_, fun hrule => ?_⟩
    · unfold Guard.Authorize
      rw [hc]
      dsimp only
      rw [if_pos (reauth_all_pass _ user boundParams hrules)]
    · refine ⟨ApiError.NewUnauthorized, ?_, rfl⟩
      unfold Guard.Authorize
      rw [hc]
      dsimp only
      rw [if_neg (reauth_one_fails _ user boundParams hrule)]

/-- C17, on the Admin guard of the update of an organization: no identity is
refused with 401, a user who is no administrator with 403, and an administrator
is let in; and on the Owner guard of the update of a user: no identity is
refused with 401, another user with 403, and the owner is let in to change the
name, and to change the email with the current password. -/
theorem Authorize_contract_witness :
    (∃ e, Guard.Authorize ⟨Access.Admin, []⟩ none [] = some e ∧ e.code = 401)
    ∧ (∃ e, Guard.Authorize ⟨Access.Admin, []⟩
        (some ⟨"48d0c8b8-d7a3-4855-9d90-29a06ef474b0", false⟩) [] = some e ∧ e.code = 403)
    ∧ Guard.Authorize ⟨Access.Admin, []⟩
        (some ⟨"48d0c8b8-d7a3-4855-9d90-29a06ef474b0", true⟩) [] = none
    ∧ (∃ e, (userUpdateGuard "fake").Authorize none [("id", "u1")] = some e ∧ e.code = 401)
    ∧ (∃ e, (userUpdateGuard "fake").Authorize (some ⟨"u2", false⟩) [("id", "u1")] = some e
        ∧ e.code = 403)
    ∧ (userUpdateGuard "fake").Authorize (some ⟨"u1", false⟩)
        [("id", "u1"), ("name", "Melvin")] = none
    ∧ (userUpdateGuard "fake").Authorize (some ⟨"u1", false⟩)
        [("id", "u1"), ("current_password", "fake"), ("email", "melvin@fake.io")] = none :=
  ⟨(Authorize_contract ⟨Access.Admin, []⟩ [] (fun hyp => Access.noConfusion hyp)).1,
   ((Authorize_contract ⟨Access.Admin, []⟩ [] (fun hyp => Access.noConfusion hyp)).2
      ⟨"48d0c8b8-d7a3-4855-9d90-29a06ef474b0", false⟩).1 rfl rfl,
   (((Authorize_contract ⟨Access.Admin, []⟩ [] (fun hyp => Access.noConfusion hyp)).2
      ⟨"48d0c8b8-d7a3-4855-9d90-29a06ef474b0", true⟩).2.2 (Or.inr (Or.inl ⟨rfl, rfl⟩))).1
      (fun rule hrule => absurd hrule (List.not_mem_nil rule)),
   (Authorize_contract (userUpdateGuard "fake") [("id", "u1")]
      (fun hyp => Access.noConfusion hyp)).1,
   ((Authorize_contract (userUpdateGuard "fake") [("id", "u1")]
      (fun hyp => Access.noConfusion hyp)).2 ⟨"u2", false⟩).2.1 ownerFromID rfl (by decide),
   (((Authorize_contract (userUpdateGuard "fake") [("id", "u1"), ("name", "Melvin")]
      (fun hyp => Access.noConfusion hyp)).2 ⟨"u1", false⟩).2.2
      (Or.inr (Or.inr ⟨ownerFromID, rfl, by decide⟩))).1 (by decide),
   (((Authorize_contract (userUpdateGuard "fake")
      [("id", "u1"), ("current_password", "fake"), ("email", "melvin@fake.io")]
      (fun hyp => Access.noConfusion hyp)).2 ⟨"u1", false⟩).2.2
      (Or.inr (Or.inr ⟨ownerFromID, rfl, by decide⟩))).1 (by decide)⟩

/-- C17 as stated fails: on the Owner guard of the update of a user, the owner
who changes the email without the current password has the capability and is
refused with 401. -/
theorem Authorize_owner_without_credential :
    (⟨"u1", false⟩ : User).ID = ownerFromID [("id", "u1"), ("email", "melvin@fake.io")]
    ∧ (userUpdateGuard "fake").Authorize (some ⟨"u1", false⟩)
        [("id", "u1"), ("email", "melvin@fake.io")] = some ⟨401, "Unauthorized"⟩ := by
  decide
